import Mathlib

/-
Verification development for the YCSB-style workload configuration crate.

The single source file defines:
  * three closed enums (`Distribution`, `InsertOrder`, `MeasurementType`)
    serialized by serde with `rename_all = "lowercase"`;
  * two duration-valued sub-configs (`HistogramConfig`, `TimeseriesConfig`)
    serialized as whole milliseconds;
  * the aggregate `Workload` struct with `#[serde(default)]`, per-field
    `#[serde(rename = "...")]` wire keys, a `Default` instance, a
    derive_builder `WorkloadBuilder` with `#[builder(default)]`, the
    `from_toml_str` / `from_toml_file` parse entry points (both `.unwrap()`
    the underlying result), and six preset factories `a`..`f`.

The shallow embedding below models:
  * Rust `f64` as `F64`: NaN plus exact decimal numbers, which covers every
    float value the program writes or reads from its decimal text format;
  * `std::time::Duration` as a count of nanoseconds;
  * the TOML documents the crate exchanges, both as a structured document
    (`TomlDoc`: root key/values plus named tables) and as text, with an
    executable printer and an executable parser for the fragment of TOML
    this schema uses;
  * the serde-derived (de)serialization of `Workload` over such documents,
    including merge-onto-defaults for absent keys, tolerance of unknown
    keys, enum variant matching, and the second/millisecond duration
    encodings of serde_with.
-/

namespace Ycsb

/-- Finite values of the Rust type `f64` are modelled as exact signed decimal
numbers `m / 10 ^ e`, plus a distinguished not-a-number value.  Every float
the program produces or consumes travels through decimal text, so this
domain is faithful for the claims under study. -/
inductive F64 where
  | nan : F64
  | num : Int → Nat → F64
deriving DecidableEq

/-- Rust `f64` equality (`PartialEq`): NaN is unequal to everything,
finite values compare numerically. -/
def F64.beq : F64 → F64 → Bool
  | .nan, _ => false
  | _, .nan => false
  | .num m1 e1, .num m2 e2 => m1 * (10 : Int) ^ e2 == m2 * (10 : Int) ^ e1

/-- Whether the value is the not-a-number value. -/
def F64.isNan : F64 → Bool
  | .nan => true
  | _ => false

/-- `std::time::Duration`, modelled as a whole number of nanoseconds. -/
abbrev Duration := Nat

/-- `Duration::from_secs`. -/
def Duration.from_secs (s : Nat) : Duration := s * 1000000000

/-- `Duration::from_millis`. -/
def Duration.from_millis (ms : Nat) : Duration := ms * 1000000

/-- The key-distribution enum of the source (serde `rename_all = "lowercase"`). -/
inductive Distribution where
  | Constant : Distribution
  | Uniform : Distribution
  | Zipfian : Distribution
  | Latest : Distribution
deriving DecidableEq

/-- Canonical lowercase wire name of a `Distribution` variant. -/
def Distribution.toStr : Distribution → String
  | .Constant => "constant"
  | .Uniform => "uniform"
  | .Zipfian => "zipfian"
  | .Latest => "latest"

/-- serde unit-variant lookup for `Distribution`: a string is accepted
exactly when it is one of the defined lowercase variant names. -/
def Distribution.fromStr (s : String) : Option Distribution :=
  if s = "constant" then some .Constant
  else if s = "uniform" then some .Uniform
  else if s = "zipfian" then some .Zipfian
  else if s = "latest" then some .Latest
  else none

/-- The insert-order enum of the source. -/
inductive InsertOrder where
  | Hashed : InsertOrder
  | Ordered : InsertOrder
deriving DecidableEq

/-- Canonical lowercase wire name of an `InsertOrder` variant. -/
def InsertOrder.toStr : InsertOrder → String
  | .Hashed => "hashed"
  | .Ordered => "ordered"

/-- serde unit-variant lookup for `InsertOrder`. -/
def InsertOrder.fromStr (s : String) : Option InsertOrder :=
  if s = "hashed" then some .Hashed
  else if s = "ordered" then some .Ordered
  else none

/-- The measurement-type enum of the source. -/
inductive MeasurementType where
  | Histogram : MeasurementType
  | Timeseries : MeasurementType
  | Raw : MeasurementType
deriving DecidableEq

/-- Canonical lowercase wire name of a `MeasurementType` variant. -/
def MeasurementType.toStr : MeasurementType → String
  | .Histogram => "histogram"
  | .Timeseries => "timeseries"
  | .Raw => "raw"

/-- serde unit-variant lookup for `MeasurementType`. -/
def MeasurementType.fromStr (s : String) : Option MeasurementType :=
  if s = "histogram" then some .Histogram
  else if s = "timeseries" then some .Timeseries
  else if s = "raw" then some .Raw
  else none

/-- `HistogramConfig { buckets: Duration }`, serialized in whole milliseconds. -/
structure HistogramConfig where
  buckets : Duration
deriving DecidableEq

/-- `TimeseriesConfig { granularity: Duration }`, serialized in whole milliseconds. -/
structure TimeseriesConfig where
  granularity : Duration
deriving DecidableEq

/-- The aggregate `Workload` struct, field for field as in the source. -/
structure Workload where
  workload : String
  record_count : Nat
  operation_count : Nat
  thread_count : Nat
  insert_count : Nat
  insert_start : Nat
  field_count : Nat
  field_length : Nat
  read_all_fields : Bool
  write_all_fields : Bool
  field_length_distribution : Distribution
  read_proportion : F64
  update_proportion : F64
  insert_proportion : F64
  read_modify_write_proportion : F64
  scan_proportion : F64
  max_scan_length : Nat
  scan_length_distribution : Distribution
  insert_order : InsertOrder
  request_distribution : Distribution
  hotspot_data_fraction : F64
  hotspot_operation_fraction : F64
  max_execution_time : Duration
  table : String
  column_family : String
  measurement_type : MeasurementType
  histogram : HistogramConfig
  timeseries : TimeseriesConfig
deriving DecidableEq

/-- Rust `PartialEq` on `Workload`: the derived field-wise conjunction, with
`f64` fields compared by `F64.beq` (so NaN makes a value unequal to itself). -/
def Workload.beq (w1 w2 : Workload) : Bool :=
  w1.workload == w2.workload &&
  w1.record_count == w2.record_count &&
  w1.operation_count == w2.operation_count &&
  w1.thread_count == w2.thread_count &&
  w1.insert_count == w2.insert_count &&
  w1.insert_start == w2.insert_start &&
  w1.field_count == w2.field_count &&
  w1.field_length == w2.field_length &&
  w1.read_all_fields == w2.read_all_fields &&
  w1.write_all_fields == w2.write_all_fields &&
  w1.field_length_distribution == w2.field_length_distribution &&
  F64.beq w1.read_proportion w2.read_proportion &&
  F64.beq w1.update_proportion w2.update_proportion &&
  F64.beq w1.insert_proportion w2.insert_proportion &&
  F64.beq w1.read_modify_write_proportion w2.read_modify_write_proportion &&
  F64.beq w1.scan_proportion w2.scan_proportion &&
  w1.max_scan_length == w2.max_scan_length &&
  w1.scan_length_distribution == w2.scan_length_distribution &&
  w1.insert_order == w2.insert_order &&
  w1.request_distribution == w2.request_distribution &&
  F64.beq w1.hotspot_data_fraction w2.hotspot_data_fraction &&
  F64.beq w1.hotspot_operation_fraction w2.hotspot_operation_fraction &&
  w1.max_execution_time == w2.max_execution_time &&
  w1.table == w2.table &&
  w1.column_family == w2.column_family &&
  w1.measurement_type == w2.measurement_type &&
  w1.histogram == w2.histogram &&
  w1.timeseries == w2.timeseries

/-- `impl Default for Workload`, value for value as in the source. -/
def Workload.default : Workload :=
  { workload := "core"
    record_count := 1000000
    operation_count := 3000000
    thread_count := 500
    insert_count := 0
    insert_start := 0
    field_count := 10
    field_length := 100
    read_all_fields := true
    write_all_fields := false
    field_length_distribution := .Constant
    read_proportion := .num 95 2
    update_proportion := .num 5 2
    insert_proportion := .num 0 0
    read_modify_write_proportion := .num 0 0
    scan_proportion := .num 0 0
    max_scan_length := 1000
    scan_length_distribution := .Uniform
    insert_order := .Hashed
    request_distribution := .Zipfian
    hotspot_data_fraction := .num 2 1
    hotspot_operation_fraction := .num 8 1
    max_execution_time := Duration.from_secs 0
    table := "usertable"
    column_family := ""
    measurement_type := .Histogram
    histogram := { buckets := Duration.from_millis 1000 }
    timeseries := { granularity := Duration.from_millis 1000 } }

/-- The derive_builder `WorkloadBuilder`: one optional override per field
(`None` means "not set").  Field names carry a prime so that the Rust
setter methods below can keep their original names. -/
structure WorkloadBuilder where
  workload' : Option String := none
  record_count' : Option Nat := none
  operation_count' : Option Nat := none
  thread_count' : Option Nat := none
  insert_count' : Option Nat := none
  insert_start' : Option Nat := none
  field_count' : Option Nat := none
  field_length' : Option Nat := none
  read_all_fields' : Option Bool := none
  write_all_fields' : Option Bool := none
  field_length_distribution' : Option Distribution := none
  read_proportion' : Option F64 := none
  update_proportion' : Option F64 := none
  insert_proportion' : Option F64 := none
  read_modify_write_proportion' : Option F64 := none
  scan_proportion' : Option F64 := none
  max_scan_length' : Option Nat := none
  scan_length_distribution' : Option Distribution := none
  insert_order' : Option InsertOrder := none
  request_distribution' : Option Distribution := none
  hotspot_data_fraction' : Option F64 := none
  hotspot_operation_fraction' : Option F64 := none
  max_execution_time' : Option Duration := none
  table' : Option String := none
  column_family' : Option String := none
  measurement_type' : Option MeasurementType := none
  histogram' : Option HistogramConfig := none
  timeseries' : Option TimeseriesConfig := none
deriving DecidableEq

/-- `WorkloadBuilder::default()`: the all-unset builder. -/
def WorkloadBuilder.default : WorkloadBuilder := {}

def WorkloadBuilder.workload (b : WorkloadBuilder) (v : String) : WorkloadBuilder :=
  { b with workload' := some v }

def WorkloadBuilder.record_count (b : WorkloadBuilder) (v : Nat) : WorkloadBuilder :=
  { b with record_count' := some v }

def WorkloadBuilder.operation_count (b : WorkloadBuilder) (v : Nat) : WorkloadBuilder :=
  { b with operation_count' := some v }

def WorkloadBuilder.thread_count (b : WorkloadBuilder) (v : Nat) : WorkloadBuilder :=
  { b with thread_count' := some v }

def WorkloadBuilder.insert_count (b : WorkloadBuilder) (v : Nat) : WorkloadBuilder :=
  { b with insert_count' := some v }

def WorkloadBuilder.insert_start (b : WorkloadBuilder) (v : Nat) : WorkloadBuilder :=
  { b with insert_start' := some v }

def WorkloadBuilder.field_count (b : WorkloadBuilder) (v : Nat) : WorkloadBuilder :=
  { b with field_count' := some v }

def WorkloadBuilder.field_length (b : WorkloadBuilder) (v : Nat) : WorkloadBuilder :=
  { b with field_length' := some v }

def WorkloadBuilder.read_all_fields (b : WorkloadBuilder) (v : Bool) : WorkloadBuilder :=
  { b with read_all_fields' := some v }

def WorkloadBuilder.write_all_fields (b : WorkloadBuilder) (v : Bool) : WorkloadBuilder :=
  { b with write_all_fields' := some v }

def WorkloadBuilder.field_length_distribution (b : WorkloadBuilder) (v : Distribution) :
    WorkloadBuilder :=
  { b with field_length_distribution' := some v }

def WorkloadBuilder.read_proportion (b : WorkloadBuilder) (v : F64) : WorkloadBuilder :=
  { b with read_proportion' := some v }

def WorkloadBuilder.update_proportion (b : WorkloadBuilder) (v : F64) : WorkloadBuilder :=
  { b with update_proportion' := some v }

def WorkloadBuilder.insert_proportion (b : WorkloadBuilder) (v : F64) : WorkloadBuilder :=
  { b with insert_proportion' := some v }

def WorkloadBuilder.read_modify_write_proportion (b : WorkloadBuilder) (v : F64) :
    WorkloadBuilder :=
  { b with read_modify_write_proportion' := some v }

def WorkloadBuilder.scan_proportion (b : WorkloadBuilder) (v : F64) : WorkloadBuilder :=
  { b with scan_proportion' := some v }

def WorkloadBuilder.max_scan_length (b : WorkloadBuilder) (v : Nat) : WorkloadBuilder :=
  { b with max_scan_length' := some v }

def WorkloadBuilder.scan_length_distribution (b : WorkloadBuilder) (v : Distribution) :
    WorkloadBuilder :=
  { b with scan_length_distribution' := some v }

def WorkloadBuilder.insert_order (b : WorkloadBuilder) (v : InsertOrder) : WorkloadBuilder :=
  { b with insert_order' := some v }

def WorkloadBuilder.request_distribution (b : WorkloadBuilder) (v : Distribution) :
    WorkloadBuilder :=
  { b with request_distribution' := some v }

def WorkloadBuilder.hotspot_data_fraction (b : WorkloadBuilder) (v : F64) : WorkloadBuilder :=
  { b with hotspot_data_fraction' := some v }

def WorkloadBuilder.hotspot_operation_fraction (b : WorkloadBuilder) (v : F64) :
    WorkloadBuilder :=
  { b with hotspot_operation_fraction' := some v }

def WorkloadBuilder.max_execution_time (b : WorkloadBuilder) (v : Duration) : WorkloadBuilder :=
  { b with max_execution_time' := some v }

def WorkloadBuilder.table (b : WorkloadBuilder) (v : String) : WorkloadBuilder :=
  { b with table' := some v }

def WorkloadBuilder.column_family (b : WorkloadBuilder) (v : String) : WorkloadBuilder :=
  { b with column_family' := some v }

def WorkloadBuilder.measurement_type (b : WorkloadBuilder) (v : MeasurementType) :
    WorkloadBuilder :=
  { b with measurement_type' := some v }

def WorkloadBuilder.histogram (b : WorkloadBuilder) (v : HistogramConfig) : WorkloadBuilder :=
  { b with histogram' := some v }

def WorkloadBuilder.timeseries (b : WorkloadBuilder) (v : TimeseriesConfig) : WorkloadBuilder :=
  { b with timeseries' := some v }

/-- The merge step of the generated `build()`: every unset field falls back
to the corresponding field of `Workload::default()` (struct-level
`#[builder(default)]`). -/
def WorkloadBuilder.buildW (b : WorkloadBuilder) : Workload :=
  { workload := b.workload'.getD Workload.default.workload
    record_count := b.record_count'.getD Workload.default.record_count
    operation_count := b.operation_count'.getD Workload.default.operation_count
    thread_count := b.thread_count'.getD Workload.default.thread_count
    insert_count := b.insert_count'.getD Workload.default.insert_count
    insert_start := b.insert_start'.getD Workload.default.insert_start
    field_count := b.field_count'.getD Workload.default.field_count
    field_length := b.field_length'.getD Workload.default.field_length
    read_all_fields := b.read_all_fields'.getD Workload.default.read_all_fields
    write_all_fields := b.write_all_fields'.getD Workload.default.write_all_fields
    field_length_distribution :=
      b.field_length_distribution'.getD Workload.default.field_length_distribution
    read_proportion := b.read_proportion'.getD Workload.default.read_proportion
    update_proportion := b.update_proportion'.getD Workload.default.update_proportion
    insert_proportion := b.insert_proportion'.getD Workload.default.insert_proportion
    read_modify_write_proportion :=
      b.read_modify_write_proportion'.getD Workload.default.read_modify_write_proportion
    scan_proportion := b.scan_proportion'.getD Workload.default.scan_proportion
    max_scan_length := b.max_scan_length'.getD Workload.default.max_scan_length
    scan_length_distribution :=
      b.scan_length_distribution'.getD Workload.default.scan_length_distribution
    insert_order := b.insert_order'.getD Workload.default.insert_order
    request_distribution :=
      b.request_distribution'.getD Workload.default.request_distribution
    hotspot_data_fraction :=
      b.hotspot_data_fraction'.getD Workload.default.hotspot_data_fraction
    hotspot_operation_fraction :=
      b.hotspot_operation_fraction'.getD Workload.default.hotspot_operation_fraction
    max_execution_time := b.max_execution_time'.getD Workload.default.max_execution_time
    table := b.table'.getD Workload.default.table
    column_family := b.column_family'.getD Workload.default.column_family
    measurement_type := b.measurement_type'.getD Workload.default.measurement_type
    histogram := b.histogram'.getD Workload.default.histogram
    timeseries := b.timeseries'.getD Workload.default.timeseries }

/-- The builder error type (the `WorkloadBuilderError` of derive_builder). -/
inductive WorkloadBuilderError where
  | uninitializedField : String → WorkloadBuilderError
deriving DecidableEq

/-- The generated `build()`.  With `#[builder(default)]` every field has a
fallback, so the uninitialized-field path is unreachable and the result is
always `ok`. -/
def WorkloadBuilder.build (b : WorkloadBuilder) :
    Except WorkloadBuilderError Workload :=
  .ok b.buildW

/-- `Workload::a` (preset A), the exact setter chain of the source followed
by `build().unwrap()`, which is lawful because `build` never fails. -/
def Workload.a (record_count operation_count : Nat) : Workload :=
  ((((((((WorkloadBuilder.default.record_count record_count).operation_count
      operation_count).read_all_fields true).insert_proportion
      (.num 0 0)).read_proportion (.num 5 1)).scan_proportion
      (.num 0 0)).update_proportion (.num 5 1)).request_distribution
      .Uniform).buildW

/-- `Workload::b` (preset B). -/
def Workload.b (record_count operation_count : Nat) : Workload :=
  ((((((((WorkloadBuilder.default.record_count record_count).operation_count
      operation_count).read_all_fields true).insert_proportion
      (.num 0 0)).read_proportion (.num 95 2)).scan_proportion
      (.num 0 0)).update_proportion (.num 5 2)).request_distribution
      .Uniform).buildW

/-- `Workload::c` (preset C). -/
def Workload.c (record_count operation_count : Nat) : Workload :=
  ((((((((WorkloadBuilder.default.record_count record_count).operation_count
      operation_count).read_all_fields true).insert_proportion
      (.num 0 0)).read_proportion (.num 1 0)).scan_proportion
      (.num 0 0)).update_proportion (.num 0 0)).request_distribution
      .Uniform).buildW

/-- `Workload::d` (preset D). -/
def Workload.d (record_count operation_count : Nat) : Workload :=
  ((((((((WorkloadBuilder.default.record_count record_count).operation_count
      operation_count).read_all_fields true).insert_proportion
      (.num 5 2)).read_proportion (.num 95 2)).scan_proportion
      (.num 0 0)).update_proportion (.num 0 0)).request_distribution
      .Latest).buildW

/-- `Workload::e` (preset E). -/
def Workload.e (record_count operation_count : Nat) : Workload :=
  ((((((((((WorkloadBuilder.default.record_count record_count).operation_count
      operation_count).read_all_fields true).insert_proportion
      (.num 5 2)).read_proportion (.num 0 0)).scan_proportion
      (.num 95 2)).update_proportion (.num 0 0)).request_distribution
      .Uniform).max_scan_length 1).scan_length_distribution .Uniform).buildW

/-- `Workload::f` (preset F). -/
def Workload.f (record_count operation_count : Nat) : Workload :=
  (((((((((WorkloadBuilder.default.record_count record_count).operation_count
      operation_count).read_all_fields true).insert_proportion
      (.num 0 0)).read_modify_write_proportion (.num 5 1)).read_proportion
      (.num 5 1)).scan_proportion (.num 0 0)).update_proportion
      (.num 0 0)).request_distribution .Uniform).buildW

/-- A scalar TOML value of the fragment this schema uses. -/
inductive Scalar where
  | int : Int → Scalar
  | float : F64 → Scalar
  | bool : Bool → Scalar
  | str : String → Scalar
deriving DecidableEq

/-- Key/value pairs of one TOML table. -/
abbrev KVs := List (String × Scalar)

/-- A TOML document of the fragment this schema uses: scalar key/values at
the root followed by named tables of scalar key/values. -/
structure TomlDoc where
  root : KVs
  tables : List (String × KVs)
deriving DecidableEq

/-- serde_with `DurationSeconds<u64>` serialization: whole seconds, with the
subsecond part rounded to the nearest second. -/
def secsOf (d : Duration) : Nat := (d + 500000000) / 1000000000

/-- serde_with `DurationMilliSeconds` serialization: whole milliseconds, with
the submillisecond part rounded to the nearest millisecond. -/
def millisOf (d : Duration) : Nat := (d + 500000) / 1000000

/-- The document view of the derived `Serialize` of `Workload`: fields in
declaration order under their `#[serde(rename)]` wire keys, enums as
lowercase names, durations as whole seconds / milliseconds, the two
sub-configs as named tables.  The i64 range check the serializer performs on
each u64 value lives in `Workload.to_toml_string`, which produces the text
of this document only when every wire integer is representable. -/
def Workload.toToml (w : Workload) : TomlDoc :=
  { root :=
      [("workload", .str w.workload),
       ("recordcount", .int w.record_count),
       ("operationcount", .int w.operation_count),
       ("threadcount", .int w.thread_count),
       ("insertcount", .int w.insert_count),
       ("insertstart", .int w.insert_start),
       ("fieldcount", .int w.field_count),
       ("fieldlength", .int w.field_length),
       ("readallfields", .bool w.read_all_fields),
       ("writeallfields", .bool w.write_all_fields),
       ("fieldlengthdistribution", .str w.field_length_distribution.toStr),
       ("readproportion", .float w.read_proportion),
       ("updateproportion", .float w.update_proportion),
       ("insertproportion", .float w.insert_proportion),
       ("readmodifywriteproportion", .float w.read_modify_write_proportion),
       ("scanproportion", .float w.scan_proportion),
       ("maxscanlength", .int w.max_scan_length),
       ("scanlengthdistribution", .str w.scan_length_distribution.toStr),
       ("insertorder", .str w.insert_order.toStr),
       ("requestdistribution", .str w.request_distribution.toStr),
       ("readcount", .float w.hotspot_data_fraction),
       ("hotspotopnfraction", .float w.hotspot_operation_fraction),
       ("maxexecutiontime", .int (secsOf w.max_execution_time)),
       ("table", .str w.table),
       ("columnfamily", .str w.column_family),
       ("measurementtype", .str w.measurement_type.toStr)],
    tables :=
      [("histogram", [("buckets", .int (millisOf w.histogram.buckets))]),
       ("timeseries", [("granularity", .int (millisOf w.timeseries.granularity))])] }

/-- serde deserialization errors, by kind. -/
inductive DeErr where
  | typeMismatch : String → DeErr
  | invalidValue : String → DeErr
  | unknownVariant : String → String → DeErr
  | missingField : String → DeErr
deriving DecidableEq

/-- Deserialize a `u64` field: absent keys take the container default
(`#[serde(default)]`), integers must be non-negative, anything else is a
type error. -/
def getNat (root : KVs) (key : String) (dfl : Nat) : Except DeErr Nat :=
  match root.lookup key with
  | none => .ok dfl
  | some (.int n) => if 0 ≤ n then .ok n.toNat else .error (.invalidValue key)
  | some _ => .error (.typeMismatch key)

/-- Deserialize an `f64` field: the serde `f64` visitor also accepts integer
values (cast to float). -/
def getF64 (root : KVs) (key : String) (dfl : F64) : Except DeErr F64 :=
  match root.lookup key with
  | none => .ok dfl
  | some (.float f) => .ok f
  | some (.int n) => .ok (.num n 0)
  | some _ => .error (.typeMismatch key)

/-- Deserialize a `bool` field. -/
def getBool (root : KVs) (key : String) (dfl : Bool) : Except DeErr Bool :=
  match root.lookup key with
  | none => .ok dfl
  | some (.bool b) => .ok b
  | some _ => .error (.typeMismatch key)

/-- Deserialize a `String` field. -/
def getStr (root : KVs) (key : String) (dfl : String) : Except DeErr String :=
  match root.lookup key with
  | none => .ok dfl
  | some (.str s) => .ok s
  | some _ => .error (.typeMismatch key)

/-- Deserialize an enum field: the value must be a string naming one of the
closed set of variants; any other string is an unknown-variant error and no
default variant is substituted. -/
def getEnum {α : Type} (fromStr : String → Option α) (root : KVs) (key : String)
    (dfl : α) : Except DeErr α :=
  match root.lookup key with
  | none => .ok dfl
  | some (.str s) =>
      match fromStr s with
      | some v => .ok v
      | none => .error (.unknownVariant key s)
  | some _ => .error (.typeMismatch key)

/-- Deserialize a `DurationSeconds<u64>` field: a non-negative integer
number of seconds. -/
def getDurationSecs (root : KVs) (key : String) (dfl : Duration) :
    Except DeErr Duration :=
  match root.lookup key with
  | none => .ok dfl
  | some (.int n) =>
      if 0 ≤ n then .ok (Duration.from_secs n.toNat) else .error (.invalidValue key)
  | some _ => .error (.typeMismatch key)

/-- Deserialize `HistogramConfig` from its table.  The sub-config has no
`#[serde(default)]`, so a present table must contain `buckets`. -/
def deHistogram (kvs : KVs) : Except DeErr HistogramConfig :=
  match kvs.lookup "buckets" with
  | none => .error (.missingField "buckets")
  | some (.int n) =>
      if 0 ≤ n then .ok { buckets := Duration.from_millis n.toNat }
      else .error (.invalidValue "buckets")
  | some _ => .error (.typeMismatch "buckets")

/-- Deserialize `TimeseriesConfig` from its table; `granularity` is required
when the table is present. -/
def deTimeseries (kvs : KVs) : Except DeErr TimeseriesConfig :=
  match kvs.lookup "granularity" with
  | none => .error (.missingField "granularity")
  | some (.int n) =>
      if 0 ≤ n then .ok { granularity := Duration.from_millis n.toNat }
      else .error (.invalidValue "granularity")
  | some _ => .error (.typeMismatch "granularity")

/-- Deserialize a sub-config field: a named table if present, the container
default if entirely absent, a type error if the key is bound to a scalar. -/
def getTable {α : Type} (de : KVs → Except DeErr α) (d : TomlDoc) (key : String)
    (dfl : α) : Except DeErr α :=
  match d.tables.lookup key with
  | some kvs => de kvs
  | none =>
      match d.root.lookup key with
      | none => .ok dfl
      | some _ => .error (.typeMismatch key)

/-- A scalar schema key bound to a table (such as `[recordcount]`) is an
invalid-type error for the derived deserializer. -/
def noTableAt (d : TomlDoc) (key : String) : Except DeErr Unit :=
  match d.tables.lookup key with
  | some _ => .error (.typeMismatch key)
  | none => .ok ()

/-- No scalar schema key appears as a table; checked field by field. -/
def noScalarKeyTable (d : TomlDoc) : Except DeErr Unit := do
  let _ ← noTableAt d "workload"
  let _ ← noTableAt d "recordcount"
  let _ ← noTableAt d "operationcount"
  let _ ← noTableAt d "threadcount"
  let _ ← noTableAt d "insertcount"
  let _ ← noTableAt d "insertstart"
  let _ ← noTableAt d "fieldcount"
  let _ ← noTableAt d "fieldlength"
  let _ ← noTableAt d "readallfields"
  let _ ← noTableAt d "writeallfields"
  let _ ← noTableAt d "fieldlengthdistribution"
  let _ ← noTableAt d "readproportion"
  let _ ← noTableAt d "updateproportion"
  let _ ← noTableAt d "insertproportion"
  let _ ← noTableAt d "readmodifywriteproportion"
  let _ ← noTableAt d "scanproportion"
  let _ ← noTableAt d "maxscanlength"
  let _ ← noTableAt d "scanlengthdistribution"
  let _ ← noTableAt d "insertorder"
  let _ ← noTableAt d "requestdistribution"
  let _ ← noTableAt d "readcount"
  let _ ← noTableAt d "hotspotopnfraction"
  let _ ← noTableAt d "maxexecutiontime"
  let _ ← noTableAt d "table"
  let _ ← noTableAt d "columnfamily"
  let _ ← noTableAt d "measurementtype"
  pure ()

/-- The derived `Deserialize` of `Workload` over a structured document:
every field is read from its wire key, absent keys fall back to
`Workload::default()` (container-level `#[serde(default)]`), keys not in
the schema are simply never consulted, and a scalar schema key bound to a
table is an invalid-type error. -/
def deWorkload (d : TomlDoc) : Except DeErr Workload := do
  let _ ← noScalarKeyTable d
  let workload ← getStr d.root "workload" Workload.default.workload
  let record_count ← getNat d.root "recordcount" Workload.default.record_count
  let operation_count ← getNat d.root "operationcount" Workload.default.operation_count
  let thread_count ← getNat d.root "threadcount" Workload.default.thread_count
  let insert_count ← getNat d.root "insertcount" Workload.default.insert_count
  let insert_start ← getNat d.root "insertstart" Workload.default.insert_start
  let field_count ← getNat d.root "fieldcount" Workload.default.field_count
  let field_length ← getNat d.root "fieldlength" Workload.default.field_length
  let read_all_fields ← getBool d.root "readallfields" Workload.default.read_all_fields
  let write_all_fields ← getBool d.root "writeallfields" Workload.default.write_all_fields
  let field_length_distribution ←
    getEnum Distribution.fromStr d.root "fieldlengthdistribution"
      Workload.default.field_length_distribution
  let read_proportion ← getF64 d.root "readproportion" Workload.default.read_proportion
  let update_proportion ← getF64 d.root "updateproportion" Workload.default.update_proportion
  let insert_proportion ← getF64 d.root "insertproportion" Workload.default.insert_proportion
  let read_modify_write_proportion ←
    getF64 d.root "readmodifywriteproportion" Workload.default.read_modify_write_proportion
  let scan_proportion ← getF64 d.root "scanproportion" Workload.default.scan_proportion
  let max_scan_length ← getNat d.root "maxscanlength" Workload.default.max_scan_length
  let scan_length_distribution ←
    getEnum Distribution.fromStr d.root "scanlengthdistribution"
      Workload.default.scan_length_distribution
  let insert_order ← getEnum InsertOrder.fromStr d.root "insertorder" Workload.default.insert_order
  let request_distribution ←
    getEnum Distribution.fromStr d.root "requestdistribution" Workload.default.request_distribution
  let hotspot_data_fraction ← getF64 d.root "readcount" Workload.default.hotspot_data_fraction
  let hotspot_operation_fraction ←
    getF64 d.root "hotspotopnfraction" Workload.default.hotspot_operation_fraction
  let max_execution_time ←
    getDurationSecs d.root "maxexecutiontime" Workload.default.max_execution_time
  let table ← getStr d.root "table" Workload.default.table
  let column_family ← getStr d.root "columnfamily" Workload.default.column_family
  let measurement_type ←
    getEnum MeasurementType.fromStr d.root "measurementtype" Workload.default.measurement_type
  let histogram ← getTable deHistogram d "histogram" Workload.default.histogram
  let timeseries ← getTable deTimeseries d "timeseries" Workload.default.timeseries
  pure
    { workload, record_count, operation_count, thread_count, insert_count,
      insert_start, field_count, field_length, read_all_fields,
      write_all_fields, field_length_distribution, read_proportion,
      update_proportion, insert_proportion, read_modify_write_proportion,
      scan_proportion, max_scan_length, scan_length_distribution,
      insert_order, request_distribution, hotspot_data_fraction,
      hotspot_operation_fraction, max_execution_time, table, column_family,
      measurement_type, histogram, timeseries }

/-- Little-endian decimal digits of a positive number, with explicit fuel
(`fuel ≥ n` suffices) so the definition is structural and kernel-evaluable. -/
def natDigitsRev : Nat → Nat → List Nat
  | 0, _ => []
  | _, 0 => []
  | fuel + 1, n + 1 => ((n + 1) % 10) :: natDigitsRev fuel ((n + 1) / 10)

/-- The character of one decimal digit. -/
def digitChar (d : Nat) : Char := Char.ofNat (48 + d)

/-- Decimal digit value of a character (only used on digit characters). -/
def digitVal (c : Char) : Nat := c.toNat - 48

/-- Is the character a decimal digit? -/
def isDigitC (c : Char) : Bool := 48 ≤ c.toNat && c.toNat ≤ 57

/-- Value of a little-endian list of decimal digits. -/
def valRev (ds : List Nat) : Nat := ds.foldr (fun d a => a * 10 + d) 0

/-- Decimal rendering of a natural number, no leading zeros. -/
def printNat (n : Nat) : List Char :=
  if n = 0 then ['0'] else ((natDigitsRev n n).map digitChar).reverse

/-- Decimal rendering of an integer. -/
def printInt (n : Int) : List Char :=
  if n < 0 then '-' :: printNat n.natAbs else printNat n.natAbs

/-- The fractional digit block of a decimal float: `r` padded with leading
zeros to exactly `e` digits. -/
def printFrac (r : Nat) (e : Nat) : List Char :=
  List.replicate (e - (printNat r).length) '0' ++ printNat r

/-- Rendering of an `f64` as the toml serializer writes it: `nan` for NaN,
otherwise a signed decimal with at least one fractional digit (a value with
no fractional part gets a trailing `.0`). -/
def printF64 : F64 → List Char
  | .nan => ['n', 'a', 'n']
  | .num m e =>
      let a := m.natAbs
      let core :=
        if e = 0 then printNat a ++ ['.', '0']
        else printNat (a / 10 ^ e) ++ '.' :: printFrac (a % 10 ^ e) e
      if m < 0 then '-' :: core else core

/-- Uppercase hexadecimal digit character. -/
def hexDigitChar (n : Nat) : Char :=
  Char.ofNat (if n < 10 then 48 + n else 55 + n)

/-- Value of a hexadecimal digit character, if it is one. -/
def hexDigitVal (c : Char) : Option Nat :=
  if 48 ≤ c.toNat && c.toNat ≤ 57 then some (c.toNat - 48)
  else if 65 ≤ c.toNat && c.toNat ≤ 70 then some (c.toNat - 55)
  else if 97 ≤ c.toNat && c.toNat ≤ 102 then some (c.toNat - 87)
  else none

/-- TOML basic-string escaping of one character: quote, backslash, the named
control escapes, and a four-digit unicode escape for the remaining control
characters. -/
def escapeChar (c : Char) : List Char :=
  if c = '"' then ['\\', '"']
  else if c = '\\' then ['\\', '\\']
  else if c = Char.ofNat 8 then ['\\', 'b']
  else if c = Char.ofNat 9 then ['\\', 't']
  else if c = Char.ofNat 10 then ['\\', 'n']
  else if c = Char.ofNat 12 then ['\\', 'f']
  else if c = Char.ofNat 13 then ['\\', 'r']
  else if c.toNat < 32 then
    ['\\', 'u', hexDigitChar (c.toNat / 4096), hexDigitChar (c.toNat / 256 % 16),
     hexDigitChar (c.toNat / 16 % 16), hexDigitChar (c.toNat % 16)]
  else [c]

/-- Escape a whole string body. -/
def escapeList (cs : List Char) : List Char := (cs.map escapeChar).flatten

/-- Rendering of one scalar TOML value. -/
def printScalar : Scalar → List Char
  | .int n => printInt n
  | .float f => printF64 f
  | .bool true => ['t', 'r', 'u', 'e']
  | .bool false => ['f', 'a', 'l', 's', 'e']
  | .str s => '"' :: (escapeList s.data ++ ['"'])

/-- One `key = value` line as the toml serializer writes it. -/
def printKVLine (k : String) (v : Scalar) : List Char :=
  k.data ++ ' ' :: '=' :: ' ' :: printScalar v

/-- The lines of a block of key/value pairs. -/
def printKVsLines (kvs : KVs) : List (List Char) :=
  kvs.map fun p => printKVLine p.1 p.2

/-- The lines of one named table: a blank separator line, the `[name]`
header, then its key/value lines. -/
def printTableLines (nm : String) (kvs : KVs) : List (List Char) :=
  [] :: ('[' :: (nm.data ++ [']'])) :: printKVsLines kvs

/-- All lines of a document. -/
def docLines (d : TomlDoc) : List (List Char) :=
  printKVsLines d.root ++ (d.tables.map fun p => printTableLines p.1 p.2).flatten

/-- Join lines with newline separators. -/
def joinLines : List (List Char) → List Char
  | [] => []
  | [l] => l
  | l :: ls => l ++ '\n' :: joinLines ls

/-- The full text of a document, with the trailing newline the serializer emits. -/
def printDocChars (d : TomlDoc) : List Char := joinLines (docLines d) ++ ['\n']

/-- `toml::ser::Error`: a u64 value beyond the i64 range cannot be written
as a TOML integer. -/
inductive SerError where
  | outOfRange : String → SerError
deriving DecidableEq

/-- Check one u64 wire integer against the i64 upper bound, as the toml
serializer does when it writes the value. -/
def serCheckNat (key : String) (n : Nat) : Except SerError Unit :=
  if n ≤ 9223372036854775807 then .ok () else .error (.outOfRange key)

/-- `toml::to_string(&w)`: serialize a `Workload` to its canonical TOML
text.  Fails with an out-of-range error when a u64 wire integer (a count
field or a rounded whole-unit duration) exceeds `i64::MAX`; the checks run
in field declaration order. -/
def Workload.to_toml_string (w : Workload) : Except SerError String := do
  let _ ← serCheckNat "recordcount" w.record_count
  let _ ← serCheckNat "operationcount" w.operation_count
  let _ ← serCheckNat "threadcount" w.thread_count
  let _ ← serCheckNat "insertcount" w.insert_count
  let _ ← serCheckNat "insertstart" w.insert_start
  let _ ← serCheckNat "fieldcount" w.field_count
  let _ ← serCheckNat "fieldlength" w.field_length
  let _ ← serCheckNat "maxscanlength" w.max_scan_length
  let _ ← serCheckNat "maxexecutiontime" (secsOf w.max_execution_time)
  let _ ← serCheckNat "buckets" (millisOf w.histogram.buckets)
  let _ ← serCheckNat "granularity" (millisOf w.timeseries.granularity)
  pure ⟨printDocChars w.toToml⟩

/-- A syntactically malformed document (the error of the text parser). -/
inductive DocError where
  | malformed : DocError
deriving DecidableEq

/-- Split text into its lines at newline characters. -/
def splitLines : List Char → List (List Char)
  | [] => [[]]
  | c :: rest =>
      if c = '\n' then [] :: splitLines rest
      else
        match splitLines rest with
        | [] => [[c]]
        | l :: ls => (c :: l) :: ls

/-- Drop leading spaces. -/
def skipSpaces (l : List Char) : List Char := l.dropWhile fun c => c == ' '

/-- Characters allowed in a bare TOML key. -/
def isBareKeyChar (c : Char) : Bool := c.isAlphanum || c == '_' || c == '-'

/-- Resolve one named escape of a basic string. -/
def unescapeChar (c : Char) : Option Char :=
  if c = 'n' then some (Char.ofNat 10)
  else if c = 't' then some (Char.ofNat 9)
  else if c = 'r' then some (Char.ofNat 13)
  else if c = 'b' then some (Char.ofNat 8)
  else if c = 'f' then some (Char.ofNat 12)
  else if c = '"' then some '"'
  else if c = '\\' then some '\\'
  else none

/-- Scan the body of a basic string up to its closing quote, resolving
escapes; returns the decoded content and the rest of the line. -/
def scanString : List Char → Option (List Char × List Char)
  | [] => none
  | c :: rest =>
      if c = '"' then some ([], rest)
      else if c = '\\' then
        match rest with
        | [] => none
        | c2 :: rest2 =>
            if c2 = 'u' then
              match rest2 with
              | h1 :: h2 :: h3 :: h4 :: rest3 => do
                  let d1 ← hexDigitVal h1
                  let d2 ← hexDigitVal h2
                  let d3 ← hexDigitVal h3
                  let d4 ← hexDigitVal h4
                  let p ← scanString rest3
                  pure (Char.ofNat (d1 * 4096 + d2 * 256 + d3 * 16 + d4) :: p.1, p.2)
              | _ => none
            else do
              let c' ← unescapeChar c2
              let p ← scanString rest2
              pure (c' :: p.1, p.2)
      else do
        let p ← scanString rest
        pure (c :: p.1, p.2)

/-- Numeric value of a block of decimal digit characters. -/
def digitsVal (ds : List Char) : Nat := ds.foldl (fun a c => a * 10 + digitVal c) 0

/-- Strip factors of ten shared by the mantissa and the decimal exponent, so
parsed floats have a canonical representation. -/
def normAux : Nat → Int → Nat → Int × Nat
  | 0, m, e => (m, e)
  | _ + 1, m, 0 => (m, 0)
  | fuel + 1, m, e + 1 => if m % 10 == 0 then normAux fuel (m / 10) e else (m, e + 1)

/-- Canonical finite `f64` with mantissa `m` and decimal exponent `e`. -/
def F64.normalize (m : Int) (e : Nat) : F64 :=
  let p := normAux e m e
  .num p.1 p.2

/-- Negate a parsed numeric scalar. -/
def negScalar : Scalar → Scalar
  | .int n => .int (-n)
  | .float (.num m e) => .float (.num (-m) e)
  | s => s

/-- Does the digit block carry a forbidden leading zero?  TOML rejects
integers such as `00` and `01` as malformed. -/
def leadingZero : List Char → Bool
  | c :: _ :: _ => c == '0'
  | _ => false

/-- Parse an unsigned number: a nonempty digit block without a leading zero,
optionally followed by a dot and a nonempty fractional digit block. -/
def parseUnsignedNumber (l : List Char) : Option (Scalar × List Char) :=
  if (l.takeWhile isDigitC).isEmpty then none
  else if leadingZero (l.takeWhile isDigitC) then none
  else if (l.dropWhile isDigitC).take 1 = ['.'] then
    if (((l.dropWhile isDigitC).drop 1).takeWhile isDigitC).isEmpty then none
    else
      some (.float (F64.normalize
        (Int.ofNat (digitsVal (l.takeWhile isDigitC) *
          10 ^ (((l.dropWhile isDigitC).drop 1).takeWhile isDigitC).length +
          digitsVal (((l.dropWhile isDigitC).drop 1).takeWhile isDigitC)))
        (((l.dropWhile isDigitC).drop 1).takeWhile isDigitC).length),
        ((l.dropWhile isDigitC).drop 1).dropWhile isDigitC)
  else some (.int (Int.ofNat (digitsVal (l.takeWhile isDigitC))), l.dropWhile isDigitC)

/-- TOML integers are i64: is `n` representable? -/
def inI64 (n : Int) : Bool :=
  -9223372036854775808 ≤ n && n ≤ 9223372036854775807

/-- Reject a parsed integer outside the i64 range, as the toml parser
does; other scalars pass through. -/
def checkIntRange : Scalar × List Char → Option (Scalar × List Char)
  | (.int n, rest) => if inI64 n then some (.int n, rest) else none
  | p => some p

/-- Parse one scalar value at the start of `l`. -/
def parseScalar (l : List Char) : Option (Scalar × List Char) :=
  if l.take 1 = ['"'] then (scanString (l.drop 1)).map fun p => (.str ⟨p.1⟩, p.2)
  else if l.take 1 = ['-'] then
    (parseUnsignedNumber (l.drop 1)).bind fun p => checkIntRange (negScalar p.1, p.2)
  else if l.take 4 = ['t', 'r', 'u', 'e'] then some (.bool true, l.drop 4)
  else if l.take 5 = ['f', 'a', 'l', 's', 'e'] then some (.bool false, l.drop 5)
  else if l.take 3 = ['n', 'a', 'n'] then some (.float .nan, l.drop 3)
  else (parseUnsignedNumber l).bind checkIntRange

/-- What one line of a document contributes. -/
inductive LineKind where
  | blank : LineKind
  | header : String → LineKind
  | kv : String → Scalar → LineKind
deriving DecidableEq

/-- Is the rest of a line insignificant (spaces, optionally a comment)? -/
def lineRestBlank (l : List Char) : Bool :=
  match skipSpaces l with
  | [] => true
  | '#' :: _ => true
  | _ => false

/-- Classify one line: blank/comment, a `[name]` table header, or a
`key = value` binding. -/
def classifyLine (l : List Char) : Except DocError LineKind :=
  if (skipSpaces l).isEmpty then .ok .blank
  else if (skipSpaces l).take 1 = ['#'] then .ok .blank
  else if (skipSpaces l).take 1 = ['['] then
    if (((skipSpaces l).drop 1).takeWhile isBareKeyChar).isEmpty then
      .error .malformed
    else if (((skipSpaces l).drop 1).dropWhile isBareKeyChar).take 1 = [']'] then
      if lineRestBlank ((((skipSpaces l).drop 1).dropWhile isBareKeyChar).drop 1)
      then .ok (.header ⟨((skipSpaces l).drop 1).takeWhile isBareKeyChar⟩)
      else .error .malformed
    else .error .malformed
  else if ((skipSpaces l).takeWhile isBareKeyChar).isEmpty then .error .malformed
  else if (skipSpaces ((skipSpaces l).dropWhile isBareKeyChar)).take 1 = ['='] then
    match parseScalar
        (skipSpaces ((skipSpaces ((skipSpaces l).dropWhile isBareKeyChar)).drop 1)) with
    | some (v, rest3) =>
        if lineRestBlank rest3 then
          .ok (.kv ⟨(skipSpaces l).takeWhile isBareKeyChar⟩ v)
        else .error .malformed
    | none => .error .malformed
  else .error .malformed

/-- Parser state: finished root and tables, plus the table currently open. -/
structure PState where
  root : KVs := []
  tabs : List (String × KVs) := []
  cur : Option (String × KVs) := none
deriving DecidableEq

/-- Names of tables already seen (finished or open). -/
def PState.names (st : PState) : List String :=
  st.tabs.map (·.1) ++ (match st.cur with | some p => [p.1] | none => [])

/-- Fold one classified line into the parser state, rejecting duplicate keys
and duplicate table names as TOML does. -/
def pushLine (st : PState) : LineKind → Except DocError PState
  | .blank => .ok st
  | .header n =>
      if (st.root.lookup n).isSome then .error .malformed
      else if st.names.contains n then .error .malformed
      else
        match st.cur with
        | none => .ok { st with cur := some (n, []) }
        | some (m, kvs) =>
            .ok { root := st.root, tabs := st.tabs ++ [(m, kvs)], cur := some (n, []) }
  | .kv k v =>
      match st.cur with
      | none =>
          if (st.root.lookup k).isSome then .error .malformed
          else .ok { st with root := st.root ++ [(k, v)] }
      | some (m, kvs) =>
          if (kvs.lookup k).isSome then .error .malformed
          else .ok { st with cur := some (m, kvs ++ [(k, v)]) }

/-- Close the open table, if any, yielding the finished document. -/
def finalize (st : PState) : TomlDoc :=
  match st.cur with
  | none => ⟨st.root, st.tabs⟩
  | some (m, kvs) => ⟨st.root, st.tabs ++ [(m, kvs)]⟩

/-- Classify every line of a document. -/
def classifyAll : List (List Char) → Except DocError (List LineKind)
  | [] => .ok []
  | l :: ls => do
      let k ← classifyLine l
      let ks ← classifyAll ls
      pure (k :: ks)

/-- Fold all classified lines into the parser state. -/
def pushAll : PState → List LineKind → Except DocError PState
  | st, [] => .ok st
  | st, k :: ks => do
      let st2 ← pushLine st k
      pushAll st2 ks

/-- Parse a whole document from text. -/
def parseDocChars (cs : List Char) : Except DocError TomlDoc := do
  let kinds ← classifyAll (splitLines cs)
  let st ← pushAll {} kinds
  pure (finalize st)

/-- Parse a TOML document from a string. -/
def tomlParse (s : String) : Except DocError TomlDoc := parseDocChars s.data

/-- `toml::de::Error`, by failure stage: the document is not well-formed
text, or a well-formed document does not deserialize. -/
inductive TomlError where
  | documentError : DocError → TomlError
  | deserializeError : DeErr → TomlError
deriving DecidableEq

/-- `toml::from_str::<Workload>`: parse the text, then deserialize. -/
def toml_from_str (s : String) : Except TomlError Workload :=
  match tomlParse s with
  | .error e => .error (.documentError e)
  | .ok d =>
      match deWorkload d with
      | .ok w => .ok w
      | .error e => .error (.deserializeError e)

/-- The observable outcome of calling a Rust function that may panic. -/
inductive RustOutcome (α : Type) where
  | ok : α → RustOutcome α
  | panicked : RustOutcome α
deriving DecidableEq

/-- `Workload::from_toml_str`: the source calls `.unwrap()` on the parse
result, so an error becomes a panic of the calling process. -/
def Workload.from_toml_str (s : String) : RustOutcome Workload :=
  match toml_from_str s with
  | .ok w => .ok w
  | .error _ => .panicked

/-- `Workload::from_toml_file`: `fs::read_to_string(path).unwrap()` (a panic
when the path is unreadable, modelled by the file map returning `none`)
followed by `from_toml_str`. -/
def Workload.from_toml_file (readFile : String → Option String) (path : String) :
    RustOutcome Workload :=
  match readFile path with
  | none => .panicked
  | some content => Workload.from_toml_str content

/-- Is the scalar representable on the TOML wire (integers within i64)? -/
def scalarInRange : Scalar → Bool
  | .int n => inI64 n
  | _ => true

/-- Canonical form of a scalar after one print/parse trip: only the float
representation changes, into its normalized mantissa/exponent form. -/
def canonScalar : Scalar → Scalar
  | .float (.num m e) => .float (F64.normalize m e)
  | s => s

/-- Canonical form of a whole document after one print/parse trip. -/
def canonDoc (d : TomlDoc) : TomlDoc :=
  { root := d.root.map fun p => (p.1, canonScalar p.2),
    tables := d.tables.map fun q => (q.1, q.2.map fun p => (p.1, canonScalar p.2)) }

/-- Canonical form of an `f64` after one print/parse trip. -/
def canonF64 : F64 → F64
  | .nan => .nan
  | .num m e => F64.normalize m e

/-- The value the parser recovers from the canonical text of `w`: float
fields in canonical mantissa/exponent form, durations re-derived from their
rounded whole-unit wire encoding, everything else unchanged. -/
def canonW (w : Workload) : Workload :=
  { w with
    read_proportion := canonF64 w.read_proportion,
    update_proportion := canonF64 w.update_proportion,
    insert_proportion := canonF64 w.insert_proportion,
    read_modify_write_proportion := canonF64 w.read_modify_write_proportion,
    scan_proportion := canonF64 w.scan_proportion,
    hotspot_data_fraction := canonF64 w.hotspot_data_fraction,
    hotspot_operation_fraction := canonF64 w.hotspot_operation_fraction,
    max_execution_time := Duration.from_secs (secsOf w.max_execution_time),
    histogram := ⟨Duration.from_millis (millisOf w.histogram.buckets)⟩,
    timeseries := ⟨Duration.from_millis (millisOf w.timeseries.granularity)⟩ }

/-- The duration and float preconditions of the round trip: durations are
whole numbers of the unit they are encoded in, and no float field is NaN.
The default instance and the presets satisfy them; a deserialized value
need not, since a document can bind a float key to `nan`. -/
def GoodWorkload (w : Workload) : Prop :=
  w.max_execution_time % 1000000000 = 0 ∧
  w.histogram.buckets % 1000000 = 0 ∧
  w.timeseries.granularity % 1000000 = 0 ∧
  w.read_proportion.isNan = false ∧
  w.update_proportion.isNan = false ∧
  w.insert_proportion.isNan = false ∧
  w.read_modify_write_proportion.isNan = false ∧
  w.scan_proportion.isNan = false ∧
  w.hotspot_data_fraction.isNan = false ∧
  w.hotspot_operation_fraction.isNan = false

/-- Every u64 wire integer of `w` (count fields and the rounded whole-unit
durations) is within the i64 range, so `toml::to_string` can write it. -/
def InRangeWorkload (w : Workload) : Prop :=
  w.record_count ≤ 9223372036854775807 ∧
  w.operation_count ≤ 9223372036854775807 ∧
  w.thread_count ≤ 9223372036854775807 ∧
  w.insert_count ≤ 9223372036854775807 ∧
  w.insert_start ≤ 9223372036854775807 ∧
  w.field_count ≤ 9223372036854775807 ∧
  w.field_length ≤ 9223372036854775807 ∧
  w.max_scan_length ≤ 9223372036854775807 ∧
  secsOf w.max_execution_time ≤ 9223372036854775807 ∧
  millisOf w.histogram.buckets ≤ 9223372036854775807 ∧
  millisOf w.timeseries.granularity ≤ 9223372036854775807

/-- A `Workload` survives the full serialize-then-parse pipeline:
serialization succeeds, parsing the produced text succeeds, and the parsed
value is equal (in the `PartialEq` sense of Rust) to the original. -/
def SerdeRoundTrips (w : Workload) : Prop :=
  ∃ s w', Workload.to_toml_string w = .ok s ∧
    Workload.from_toml_str s = .ok w' ∧ Workload.beq w w' = true

end Ycsb

deriving instance DecidableEq for Except

namespace Ycsb

attribute [ext] Workload

/-- An unset builder field falls back to the default (workload). -/
lemma buildW_workload_none (b : WorkloadBuilder) (h : b.workload' = none) :
    b.buildW.workload = Workload.default.workload := by
  simp [WorkloadBuilder.buildW, h]

/-- A set builder field is used by build (workload). -/
lemma buildW_workload_some (b : WorkloadBuilder) (v) (h : b.workload' = some v) :
    b.buildW.workload = v := by
  simp [WorkloadBuilder.buildW, h]

/-- An unset builder field falls back to the default (record_count). -/
lemma buildW_record_count_none (b : WorkloadBuilder) (h : b.record_count' = none) :
    b.buildW.record_count = Workload.default.record_count := by
  simp [WorkloadBuilder.buildW, h]

/-- A set builder field is used by build (record_count). -/
lemma buildW_record_count_some (b : WorkloadBuilder) (v) (h : b.record_count' = some v) :
    b.buildW.record_count = v := by
  simp [WorkloadBuilder.buildW, h]

/-- An unset builder field falls back to the default (operation_count). -/
lemma buildW_operation_count_none (b : WorkloadBuilder) (h : b.operation_count' = none) :
    b.buildW.operation_count = Workload.default.operation_count := by
  simp [WorkloadBuilder.buildW, h]

/-- A set builder field is used by build (operation_count). -/
lemma buildW_operation_count_some (b : WorkloadBuilder) (v) (h : b.operation_count' = some v) :
    b.buildW.operation_count = v := by
  simp [WorkloadBuilder.buildW, h]

/-- An unset builder field falls back to the default (thread_count). -/
lemma buildW_thread_count_none (b : WorkloadBuilder) (h : b.thread_count' = none) :
    b.buildW.thread_count = Workload.default.thread_count := by
  simp [WorkloadBuilder.buildW, h]

/-- A set builder field is used by build (thread_count). -/
lemma buildW_thread_count_some (b : WorkloadBuilder) (v) (h : b.thread_count' = some v) :
    b.buildW.thread_count = v := by
  simp [WorkloadBuilder.buildW, h]

/-- An unset builder field falls back to the default (insert_count). -/
lemma buildW_insert_count_none (b : WorkloadBuilder) (h : b.insert_count' = none) :
    b.buildW.insert_count = Workload.default.insert_count := by
  simp [WorkloadBuilder.buildW, h]

/-- A set builder field is used by build (insert_count). -/
lemma buildW_insert_count_some (b : WorkloadBuilder) (v) (h : b.insert_count' = some v) :
    b.buildW.insert_count = v := by
  simp [WorkloadBuilder.buildW, h]

/-- An unset builder field falls back to the default (insert_start). -/
lemma buildW_insert_start_none (b : WorkloadBuilder) (h : b.insert_start' = none) :
    b.buildW.insert_start = Workload.default.insert_start := by
  simp [WorkloadBuilder.buildW, h]

/-- A set builder field is used by build (insert_start). -/
lemma buildW_insert_start_some (b : WorkloadBuilder) (v) (h : b.insert_start' = some v) :
    b.buildW.insert_start = v := by
  simp [WorkloadBuilder.buildW, h]

/-- An unset builder field falls back to the default (field_count). -/
lemma buildW_field_count_none (b : WorkloadBuilder) (h : b.field_count' = none) :
    b.buildW.field_count = Workload.default.field_count := by
  simp [WorkloadBuilder.buildW, h]

/-- A set builder field is used by build (field_count). -/
lemma buildW_field_count_some (b : WorkloadBuilder) (v) (h : b.field_count' = some v) :
    b.buildW.field_count = v := by
  simp [WorkloadBuilder.buildW, h]

/-- An unset builder field falls back to the default (field_length). -/
lemma buildW_field_length_none (b : WorkloadBuilder) (h : b.field_length' = none) :
    b.buildW.field_length = Workload.default.field_length := by
  simp [WorkloadBuilder.buildW, h]

/-- A set builder field is used by build (field_length). -/
lemma buildW_field_length_some (b : WorkloadBuilder) (v) (h : b.field_length' = some v) :
    b.buildW.field_length = v := by
  simp [WorkloadBuilder.buildW, h]

/-- An unset builder field falls back to the default (read_all_fields). -/
lemma buildW_read_all_fields_none (b : WorkloadBuilder) (h : b.read_all_fields' = none) :
    b.buildW.read_all_fields = Workload.default.read_all_fields := by
  simp [WorkloadBuilder.buildW, h]

/-- A set builder field is used by build (read_all_fields). -/
lemma buildW_read_all_fields_some (b : WorkloadBuilder) (v) (h : b.read_all_fields' = some v) :
    b.buildW.read_all_fields = v := by
  simp [WorkloadBuilder.buildW, h]

/-- An unset builder field falls back to the default (write_all_fields). -/
lemma buildW_write_all_fields_none (b : WorkloadBuilder) (h : b.write_all_fields' = none) :
    b.buildW.write_all_fields = Workload.default.write_all_fields := by
  simp [WorkloadBuilder.buildW, h]

/-- A set builder field is used by build (write_all_fields). -/
lemma buildW_write_all_fields_some (b : WorkloadBuilder) (v) (h : b.write_all_fields' = some v) :
    b.buildW.write_all_fields = v := by
  simp [WorkloadBuilder.buildW, h]

/-- An unset builder field falls back to the default (field_length_distribution). -/
lemma buildW_field_length_distribution_none (b : WorkloadBuilder) (h : b.field_length_distribution' = none) :
    b.buildW.field_length_distribution = Workload.default.field_length_distribution := by
  simp [WorkloadBuilder.buildW, h]

/-- A set builder field is used by build (field_length_distribution). -/
lemma buildW_field_length_distribution_some (b : WorkloadBuilder) (v) (h : b.field_length_distribution' = some v) :
    b.buildW.field_length_distribution = v := by
  simp [WorkloadBuilder.buildW, h]

/-- An unset builder field falls back to the default (read_proportion). -/
lemma buildW_read_proportion_none (b : WorkloadBuilder) (h : b.read_proportion' = none) :
    b.buildW.read_proportion = Workload.default.read_proportion := by
  simp [WorkloadBuilder.buildW, h]

/-- A set builder field is used by build (read_proportion). -/
lemma buildW_read_proportion_some (b : WorkloadBuilder) (v) (h : b.read_proportion' = some v) :
    b.buildW.read_proportion = v := by
  simp [WorkloadBuilder.buildW, h]

/-- An unset builder field falls back to the default (update_proportion). -/
lemma buildW_update_proportion_none (b : WorkloadBuilder) (h : b.update_proportion' = none) :
    b.buildW.update_proportion = Workload.default.update_proportion := by
  simp [WorkloadBuilder.buildW, h]

/-- A set builder field is used by build (update_proportion). -/
lemma buildW_update_proportion_some (b : WorkloadBuilder) (v) (h : b.update_proportion' = some v) :
    b.buildW.update_proportion = v := by
  simp [WorkloadBuilder.buildW, h]

/-- An unset builder field falls back to the default (insert_proportion). -/
lemma buildW_insert_proportion_none (b : WorkloadBuilder) (h : b.insert_proportion' = none) :
    b.buildW.insert_proportion = Workload.default.insert_proportion := by
  simp [WorkloadBuilder.buildW, h]

/-- A set builder field is used by build (insert_proportion). -/
lemma buildW_insert_proportion_some (b : WorkloadBuilder) (v) (h : b.insert_proportion' = some v) :
    b.buildW.insert_proportion = v := by
  simp [WorkloadBuilder.buildW, h]

/-- An unset builder field falls back to the default (read_modify_write_proportion). -/
lemma buildW_read_modify_write_proportion_none (b : WorkloadBuilder) (h : b.read_modify_write_proportion' = none) :
    b.buildW.read_modify_write_proportion = Workload.default.read_modify_write_proportion := by
  simp [WorkloadBuilder.buildW, h]

/-- A set builder field is used by build (read_modify_write_proportion). -/
lemma buildW_read_modify_write_proportion_some (b : WorkloadBuilder) (v) (h : b.read_modify_write_proportion' = some v) :
    b.buildW.read_modify_write_proportion = v := by
  simp [WorkloadBuilder.buildW, h]

/-- An unset builder field falls back to the default (scan_proportion). -/
lemma buildW_scan_proportion_none (b : WorkloadBuilder) (h : b.scan_proportion' = none) :
    b.buildW.scan_proportion = Workload.default.scan_proportion := by
  simp [WorkloadBuilder.buildW, h]

/-- A set builder field is used by build (scan_proportion). -/
lemma buildW_scan_proportion_some (b : WorkloadBuilder) (v) (h : b.scan_proportion' = some v) :
    b.buildW.scan_proportion = v := by
  simp [WorkloadBuilder.buildW, h]

/-- An unset builder field falls back to the default (max_scan_length). -/
lemma buildW_max_scan_length_none (b : WorkloadBuilder) (h : b.max_scan_length' = none) :
    b.buildW.max_scan_length = Workload.default.max_scan_length := by
  simp [WorkloadBuilder.buildW, h]

/-- A set builder field is used by build (max_scan_length). -/
lemma buildW_max_scan_length_some (b : WorkloadBuilder) (v) (h : b.max_scan_length' = some v) :
    b.buildW.max_scan_length = v := by
  simp [WorkloadBuilder.buildW, h]

/-- An unset builder field falls back to the default (scan_length_distribution). -/
lemma buildW_scan_length_distribution_none (b : WorkloadBuilder) (h : b.scan_length_distribution' = none) :
    b.buildW.scan_length_distribution = Workload.default.scan_length_distribution := by
  simp [WorkloadBuilder.buildW, h]

/-- A set builder field is used by build (scan_length_distribution). -/
lemma buildW_scan_length_distribution_some (b : WorkloadBuilder) (v) (h : b.scan_length_distribution' = some v) :
    b.buildW.scan_length_distribution = v := by
  simp [WorkloadBuilder.buildW, h]

/-- An unset builder field falls back to the default (insert_order). -/
lemma buildW_insert_order_none (b : WorkloadBuilder) (h : b.insert_order' = none) :
    b.buildW.insert_order = Workload.default.insert_order := by
  simp [WorkloadBuilder.buildW, h]

/-- A set builder field is used by build (insert_order). -/
lemma buildW_insert_order_some (b : WorkloadBuilder) (v) (h : b.insert_order' = some v) :
    b.buildW.insert_order = v := by
  simp [WorkloadBuilder.buildW, h]

/-- An unset builder field falls back to the default (request_distribution). -/
lemma buildW_request_distribution_none (b : WorkloadBuilder) (h : b.request_distribution' = none) :
    b.buildW.request_distribution = Workload.default.request_distribution := by
  simp [WorkloadBuilder.buildW, h]

/-- A set builder field is used by build (request_distribution). -/
lemma buildW_request_distribution_some (b : WorkloadBuilder) (v) (h : b.request_distribution' = some v) :
    b.buildW.request_distribution = v := by
  simp [WorkloadBuilder.buildW, h]

/-- An unset builder field falls back to the default (hotspot_data_fraction). -/
lemma buildW_hotspot_data_fraction_none (b : WorkloadBuilder) (h : b.hotspot_data_fraction' = none) :
    b.buildW.hotspot_data_fraction = Workload.default.hotspot_data_fraction := by
  simp [WorkloadBuilder.buildW, h]

/-- A set builder field is used by build (hotspot_data_fraction). -/
lemma buildW_hotspot_data_fraction_some (b : WorkloadBuilder) (v) (h : b.hotspot_data_fraction' = some v) :
    b.buildW.hotspot_data_fraction = v := by
  simp [WorkloadBuilder.buildW, h]

/-- An unset builder field falls back to the default (hotspot_operation_fraction). -/
lemma buildW_hotspot_operation_fraction_none (b : WorkloadBuilder) (h : b.hotspot_operation_fraction' = none) :
    b.buildW.hotspot_operation_fraction = Workload.default.hotspot_operation_fraction := by
  simp [WorkloadBuilder.buildW, h]

/-- A set builder field is used by build (hotspot_operation_fraction). -/
lemma buildW_hotspot_operation_fraction_some (b : WorkloadBuilder) (v) (h : b.hotspot_operation_fraction' = some v) :
    b.buildW.hotspot_operation_fraction = v := by
  simp [WorkloadBuilder.buildW, h]

/-- An unset builder field falls back to the default (max_execution_time). -/
lemma buildW_max_execution_time_none (b : WorkloadBuilder) (h : b.max_execution_time' = none) :
    b.buildW.max_execution_time = Workload.default.max_execution_time := by
  simp [WorkloadBuilder.buildW, h]

/-- A set builder field is used by build (max_execution_time). -/
lemma buildW_max_execution_time_some (b : WorkloadBuilder) (v) (h : b.max_execution_time' = some v) :
    b.buildW.max_execution_time = v := by
  simp [WorkloadBuilder.buildW, h]

/-- An unset builder field falls back to the default (table). -/
lemma buildW_table_none (b : WorkloadBuilder) (h : b.table' = none) :
    b.buildW.table = Workload.default.table := by
  simp [WorkloadBuilder.buildW, h]

/-- A set builder field is used by build (table). -/
lemma buildW_table_some (b : WorkloadBuilder) (v) (h : b.table' = some v) :
    b.buildW.table = v := by
  simp [WorkloadBuilder.buildW, h]

/-- An unset builder field falls back to the default (column_family). -/
lemma buildW_column_family_none (b : WorkloadBuilder) (h : b.column_family' = none) :
    b.buildW.column_family = Workload.default.column_family := by
  simp [WorkloadBuilder.buildW, h]

/-- A set builder field is used by build (column_family). -/
lemma buildW_column_family_some (b : WorkloadBuilder) (v) (h : b.column_family' = some v) :
    b.buildW.column_family = v := by
  simp [WorkloadBuilder.buildW, h]

/-- An unset builder field falls back to the default (measurement_type). -/
lemma buildW_measurement_type_none (b : WorkloadBuilder) (h : b.measurement_type' = none) :
    b.buildW.measurement_type = Workload.default.measurement_type := by
  simp [WorkloadBuilder.buildW, h]

/-- A set builder field is used by build (measurement_type). -/
lemma buildW_measurement_type_some (b : WorkloadBuilder) (v) (h : b.measurement_type' = some v) :
    b.buildW.measurement_type = v := by
  simp [WorkloadBuilder.buildW, h]

/-- An unset builder field falls back to the default (histogram). -/
lemma buildW_histogram_none (b : WorkloadBuilder) (h : b.histogram' = none) :
    b.buildW.histogram = Workload.default.histogram := by
  simp [WorkloadBuilder.buildW, h]

/-- A set builder field is used by build (histogram). -/
lemma buildW_histogram_some (b : WorkloadBuilder) (v) (h : b.histogram' = some v) :
    b.buildW.histogram = v := by
  simp [WorkloadBuilder.buildW, h]

/-- An unset builder field falls back to the default (timeseries). -/
lemma buildW_timeseries_none (b : WorkloadBuilder) (h : b.timeseries' = none) :
    b.buildW.timeseries = Workload.default.timeseries := by
  simp [WorkloadBuilder.buildW, h]

/-- A set builder field is used by build (timeseries). -/
lemma buildW_timeseries_some (b : WorkloadBuilder) (v) (h : b.timeseries' = some v) :
    b.buildW.timeseries = v := by
  simp [WorkloadBuilder.buildW, h]

/-- C4: the zero-argument default constructor produces exactly the
documented default instance — record_count 1000000, operation_count
3000000, thread_count 500, field_count 10, field_length 100,
read_all_fields true, write_all_fields false, Constant field-length
distribution, proportions read 0.95 / update 0.05 / insert 0 / rmw 0 /
scan 0, max_scan_length 1000 with Uniform distribution, Hashed insert
order, Zipfian request distribution, hotspot fractions 0.2 / 0.8, zero max
execution time, table "usertable", empty column family, Histogram
measurement with 1000 ms buckets and 1000 ms timeseries granularity; being
a constant, every call returns this same value. -/
theorem c4_default_instance :
    Workload.default.record_count = 1000000 ∧
    Workload.default.operation_count = 3000000 ∧
    Workload.default.thread_count = 500 ∧
    Workload.default.field_count = 10 ∧
    Workload.default.field_length = 100 ∧
    Workload.default.read_all_fields = true ∧
    Workload.default.write_all_fields = false ∧
    Workload.default.field_length_distribution = Distribution.Constant ∧
    Workload.default.read_proportion = F64.num 95 2 ∧
    Workload.default.update_proportion = F64.num 5 2 ∧
    Workload.default.insert_proportion = F64.num 0 0 ∧
    Workload.default.read_modify_write_proportion = F64.num 0 0 ∧
    Workload.default.scan_proportion = F64.num 0 0 ∧
    Workload.default.max_scan_length = 1000 ∧
    Workload.default.scan_length_distribution = Distribution.Uniform ∧
    Workload.default.insert_order = InsertOrder.Hashed ∧
    Workload.default.request_distribution = Distribution.Zipfian ∧
    Workload.default.hotspot_data_fraction = F64.num 2 1 ∧
    Workload.default.hotspot_operation_fraction = F64.num 8 1 ∧
    Workload.default.max_execution_time = Duration.from_secs 0 ∧
    Workload.default.table = "usertable" ∧
    Workload.default.column_family = "" ∧
    Workload.default.measurement_type = MeasurementType.Histogram ∧
    Workload.default.histogram.buckets = Duration.from_millis 1000 ∧
    Workload.default.timeseries.granularity = Duration.from_millis 1000 := by
  decide

/-- C7: the builder never fails — `build` always returns `ok` — and every
field left unset by the overrides falls back to its value in the default
instance. -/
theorem c7_builder_total_merge :
    ∀ b : WorkloadBuilder,
      b.build = .ok b.buildW ∧
      (b.workload' = none → b.buildW.workload = Workload.default.workload) ∧
      (b.record_count' = none → b.buildW.record_count = Workload.default.record_count) ∧
      (b.operation_count' = none →
        b.buildW.operation_count = Workload.default.operation_count) ∧
      (b.thread_count' = none → b.buildW.thread_count = Workload.default.thread_count) ∧
      (b.insert_count' = none → b.buildW.insert_count = Workload.default.insert_count) ∧
      (b.insert_start' = none → b.buildW.insert_start = Workload.default.insert_start) ∧
      (b.field_count' = none → b.buildW.field_count = Workload.default.field_count) ∧
      (b.field_length' = none → b.buildW.field_length = Workload.default.field_length) ∧
      (b.read_all_fields' = none →
        b.buildW.read_all_fields = Workload.default.read_all_fields) ∧
      (b.write_all_fields' = none →
        b.buildW.write_all_fields = Workload.default.write_all_fields) ∧
      (b.field_length_distribution' = none →
        b.buildW.field_length_distribution = Workload.default.field_length_distribution) ∧
      (b.read_proportion' = none →
        b.buildW.read_proportion = Workload.default.read_proportion) ∧
      (b.update_proportion' = none →
        b.buildW.update_proportion = Workload.default.update_proportion) ∧
      (b.insert_proportion' = none →
        b.buildW.insert_proportion = Workload.default.insert_proportion) ∧
      (b.read_modify_write_proportion' = none →
        b.buildW.read_modify_write_proportion =
          Workload.default.read_modify_write_proportion) ∧
      (b.scan_proportion' = none →
        b.buildW.scan_proportion = Workload.default.scan_proportion) ∧
      (b.max_scan_length' = none →
        b.buildW.max_scan_length = Workload.default.max_scan_length) ∧
      (b.scan_length_distribution' = none →
        b.buildW.scan_length_distribution = Workload.default.scan_length_distribution) ∧
      (b.insert_order' = none → b.buildW.insert_order = Workload.default.insert_order) ∧
      (b.request_distribution' = none →
        b.buildW.request_distribution = Workload.default.request_distribution) ∧
      (b.hotspot_data_fraction' = none →
        b.buildW.hotspot_data_fraction = Workload.default.hotspot_data_fraction) ∧
      (b.hotspot_operation_fraction' = none →
        b.buildW.hotspot_operation_fraction =
          Workload.default.hotspot_operation_fraction) ∧
      (b.max_execution_time' = none →
        b.buildW.max_execution_time = Workload.default.max_execution_time) ∧
      (b.table' = none → b.buildW.table = Workload.default.table) ∧
      (b.column_family' = none → b.buildW.column_family = Workload.default.column_family) ∧
      (b.measurement_type' = none →
        b.buildW.measurement_type = Workload.default.measurement_type) ∧
      (b.histogram' = none → b.buildW.histogram = Workload.default.histogram) ∧
      (b.timeseries' = none → b.buildW.timeseries = Workload.default.timeseries) := by
  intro b
  refine ⟨rfl, ?_, ?_, ?_, ?_, ?_, ?_, ?_, ?_, ?_, ?_, ?_, ?_, ?_, ?_, ?_, ?_,
    ?_, ?_, ?_, ?_, ?_, ?_, ?_, ?_, ?_, ?_, ?_, ?_⟩ <;>
    · intro h
      simp [WorkloadBuilder.buildW, h]

/-- C7 witness: at the empty builder, `build` succeeds and an unset field
(record_count) falls back to the default. -/
theorem c7_witness :
    WorkloadBuilder.default.build = .ok WorkloadBuilder.default.buildW ∧
    WorkloadBuilder.default.buildW.record_count = Workload.default.record_count :=
  ⟨(c7_builder_total_merge WorkloadBuilder.default).1,
   (c7_builder_total_merge WorkloadBuilder.default).2.2.1 rfl⟩

/-- C3 counterexample: the claim lists no update-proportion override for
preset C, so it implies preset C keeps the default update proportion 0.05;
but `Workload::c` explicitly sets the update proportion to 0, so at
(1000, 1000) the produced value differs from the claimed one. -/
theorem c3_counterexample_preset_c_update :
    (Workload.c 1000 1000).update_proportion = F64.num 0 0 ∧
    Workload.default.update_proportion = F64.num 5 2 ∧
    (Workload.c 1000 1000).update_proportion ≠ Workload.default.update_proportion ∧
    F64.beq (Workload.c 1000 1000).update_proportion
      Workload.default.update_proportion = false := by
  decide

/-- C3 amended: each preset factory returns the default instance with
record_count and operation_count set to its arguments, read_all_fields set
to true, and exactly the overrides the code applies — including the
explicit zero proportions: A sets read 0.5 / update 0.5 / insert 0 /
scan 0, Uniform; B sets read 0.95 / update 0.05 / insert 0 / scan 0,
Uniform; C sets read 1.0 / update 0 / insert 0 / scan 0, Uniform; D sets
read 0.95 / update 0 / insert 0.05 / scan 0, Latest; E sets read 0 /
update 0 / insert 0.05 / scan 0.95, Uniform, max_scan_length 1 with
Uniform scan-length distribution; F sets read 0.5 / update 0 / insert 0 /
rmw 0.5 / scan 0, Uniform.  Every other field keeps its default value. -/
theorem c3_amended_preset_overrides :
    ∀ rc oc : Nat,
      Workload.a rc oc =
        { Workload.default with
            record_count := rc, operation_count := oc, read_all_fields := true,
            insert_proportion := F64.num 0 0, read_proportion := F64.num 5 1,
            scan_proportion := F64.num 0 0, update_proportion := F64.num 5 1,
            request_distribution := Distribution.Uniform } ∧
      Workload.b rc oc =
        { Workload.default with
            record_count := rc, operation_count := oc, read_all_fields := true,
            insert_proportion := F64.num 0 0, read_proportion := F64.num 95 2,
            scan_proportion := F64.num 0 0, update_proportion := F64.num 5 2,
            request_distribution := Distribution.Uniform } ∧
      Workload.c rc oc =
        { Workload.default with
            record_count := rc, operation_count := oc, read_all_fields := true,
            insert_proportion := F64.num 0 0, read_proportion := F64.num 1 0,
            scan_proportion := F64.num 0 0, update_proportion := F64.num 0 0,
            request_distribution := Distribution.Uniform } ∧
      Workload.d rc oc =
        { Workload.default with
            record_count := rc, operation_count := oc, read_all_fields := true,
            insert_proportion := F64.num 5 2, read_proportion := F64.num 95 2,
            scan_proportion := F64.num 0 0, update_proportion := F64.num 0 0,
            request_distribution := Distribution.Latest } ∧
      Workload.e rc oc =
        { Workload.default with
            record_count := rc, operation_count := oc, read_all_fields := true,
            insert_proportion := F64.num 5 2, read_proportion := F64.num 0 0,
            scan_proportion := F64.num 95 2, update_proportion := F64.num 0 0,
            request_distribution := Distribution.Uniform,
            max_scan_length := 1,
            scan_length_distribution := Distribution.Uniform } ∧
      Workload.f rc oc =
        { Workload.default with
            record_count := rc, operation_count := oc, read_all_fields := true,
            insert_proportion := F64.num 0 0,
            read_modify_write_proportion := F64.num 5 1,
            read_proportion := F64.num 5 1, scan_proportion := F64.num 0 0,
            update_proportion := F64.num 0 0,
            request_distribution := Distribution.Uniform } := by
  intro rc oc
  refine ⟨?_, ?_, ?_, ?_, ?_, ?_⟩
  · refine Workload.ext ?_ ?_ ?_ ?_ ?_ ?_ ?_ ?_ ?_ ?_ ?_ ?_ ?_ ?_ ?_ ?_ ?_ ?_ ?_ ?_ ?_ ?_ ?_ ?_ ?_ ?_ ?_ ?_
    · exact buildW_workload_none _ rfl
    · exact buildW_record_count_some _ _ rfl
    · exact buildW_operation_count_some _ _ rfl
    · exact buildW_thread_count_none _ rfl
    · exact buildW_insert_count_none _ rfl
    · exact buildW_insert_start_none _ rfl
    · exact buildW_field_count_none _ rfl
    · exact buildW_field_length_none _ rfl
    · exact buildW_read_all_fields_some _ _ rfl
    · exact buildW_write_all_fields_none _ rfl
    · exact buildW_field_length_distribution_none _ rfl
    · exact buildW_read_proportion_some _ _ rfl
    · exact buildW_update_proportion_some _ _ rfl
    · exact buildW_insert_proportion_some _ _ rfl
    · exact buildW_read_modify_write_proportion_none _ rfl
    · exact buildW_scan_proportion_some _ _ rfl
    · exact buildW_max_scan_length_none _ rfl
    · exact buildW_scan_length_distribution_none _ rfl
    · exact buildW_insert_order_none _ rfl
    · exact buildW_request_distribution_some _ _ rfl
    · exact buildW_hotspot_data_fraction_none _ rfl
    · exact buildW_hotspot_operation_fraction_none _ rfl
    · exact buildW_max_execution_time_none _ rfl
    · exact buildW_table_none _ rfl
    · exact buildW_column_family_none _ rfl
    · exact buildW_measurement_type_none _ rfl
    · exact buildW_histogram_none _ rfl
    · exact buildW_timeseries_none _ rfl
  · refine Workload.ext ?_ ?_ ?_ ?_ ?_ ?_ ?_ ?_ ?_ ?_ ?_ ?_ ?_ ?_ ?_ ?_ ?_ ?_ ?_ ?_ ?_ ?_ ?_ ?_ ?_ ?_ ?_ ?_
    · exact buildW_workload_none _ rfl
    · exact buildW_record_count_some _ _ rfl
    · exact buildW_operation_count_some _ _ rfl
    · exact buildW_thread_count_none _ rfl
    · exact buildW_insert_count_none _ rfl
    · exact buildW_insert_start_none _ rfl
    · exact buildW_field_count_none _ rfl
    · exact buildW_field_length_none _ rfl
    · exact buildW_read_all_fields_some _ _ rfl
    · exact buildW_write_all_fields_none _ rfl
    · exact buildW_field_length_distribution_none _ rfl
    · exact buildW_read_proportion_some _ _ rfl
    · exact buildW_update_proportion_some _ _ rfl
    · exact buildW_insert_proportion_some _ _ rfl
    · exact buildW_read_modify_write_proportion_none _ rfl
    · exact buildW_scan_proportion_some _ _ rfl
    · exact buildW_max_scan_length_none _ rfl
    · exact buildW_scan_length_distribution_none _ rfl
    · exact buildW_insert_order_none _ rfl
    · exact buildW_request_distribution_some _ _ rfl
    · exact buildW_hotspot_data_fraction_none _ rfl
    · exact buildW_hotspot_operation_fraction_none _ rfl
    · exact buildW_max_execution_time_none _ rfl
    · exact buildW_table_none _ rfl
    · exact buildW_column_family_none _ rfl
    · exact buildW_measurement_type_none _ rfl
    · exact buildW_histogram_none _ rfl
    · exact buildW_timeseries_none _ rfl
  · refine Workload.ext ?_ ?_ ?_ ?_ ?_ ?_ ?_ ?_ ?_ ?_ ?_ ?_ ?_ ?_ ?_ ?_ ?_ ?_ ?_ ?_ ?_ ?_ ?_ ?_ ?_ ?_ ?_ ?_
    · exact buildW_workload_none _ rfl
    · exact buildW_record_count_some _ _ rfl
    · exact buildW_operation_count_some _ _ rfl
    · exact buildW_thread_count_none _ rfl
    · exact buildW_insert_count_none _ rfl
    · exact buildW_insert_start_none _ rfl
    · exact buildW_field_count_none _ rfl
    · exact buildW_field_length_none _ rfl
    · exact buildW_read_all_fields_some _ _ rfl
    · exact buildW_write_all_fields_none _ rfl
    · exact buildW_field_length_distribution_none _ rfl
    · exact buildW_read_proportion_some _ _ rfl
    · exact buildW_update_proportion_some _ _ rfl
    · exact buildW_insert_proportion_some _ _ rfl
    · exact buildW_read_modify_write_proportion_none _ rfl
    · exact buildW_scan_proportion_some _ _ rfl
    · exact buildW_max_scan_length_none _ rfl
    · exact buildW_scan_length_distribution_none _ rfl
    · exact buildW_insert_order_none _ rfl
    · exact buildW_request_distribution_some _ _ rfl
    · exact buildW_hotspot_data_fraction_none _ rfl
    · exact buildW_hotspot_operation_fraction_none _ rfl
    · exact buildW_max_execution_time_none _ rfl
    · exact buildW_table_none _ rfl
    · exact buildW_column_family_none _ rfl
    · exact buildW_measurement_type_none _ rfl
    · exact buildW_histogram_none _ rfl
    · exact buildW_timeseries_none _ rfl
  · refine Workload.ext ?_ ?_ ?_ ?_ ?_ ?_ ?_ ?_ ?_ ?_ ?_ ?_ ?_ ?_ ?_ ?_ ?_ ?_ ?_ ?_ ?_ ?_ ?_ ?_ ?_ ?_ ?_ ?_
    · exact buildW_workload_none _ rfl
    · exact buildW_record_count_some _ _ rfl
    · exact buildW_operation_count_some _ _ rfl
    · exact buildW_thread_count_none _ rfl
    · exact buildW_insert_count_none _ rfl
    · exact buildW_insert_start_none _ rfl
    · exact buildW_field_count_none _ rfl
    · exact buildW_field_length_none _ rfl
    · exact buildW_read_all_fields_some _ _ rfl
    · exact buildW_write_all_fields_none _ rfl
    · exact buildW_field_length_distribution_none _ rfl
    · exact buildW_read_proportion_some _ _ rfl
    · exact buildW_update_proportion_some _ _ rfl
    · exact buildW_insert_proportion_some _ _ rfl
    · exact buildW_read_modify_write_proportion_none _ rfl
    · exact buildW_scan_proportion_some _ _ rfl
    · exact buildW_max_scan_length_none _ rfl
    · exact buildW_scan_length_distribution_none _ rfl
    · exact buildW_insert_order_none _ rfl
    · exact buildW_request_distribution_some _ _ rfl
    · exact buildW_hotspot_data_fraction_none _ rfl
    · exact buildW_hotspot_operation_fraction_none _ rfl
    · exact buildW_max_execution_time_none _ rfl
    · exact buildW_table_none _ rfl
    · exact buildW_column_family_none _ rfl
    · exact buildW_measurement_type_none _ rfl
    · exact buildW_histogram_none _ rfl
    · exact buildW_timeseries_none _ rfl
  · refine Workload.ext ?_ ?_ ?_ ?_ ?_ ?_ ?_ ?_ ?_ ?_ ?_ ?_ ?_ ?_ ?_ ?_ ?_ ?_ ?_ ?_ ?_ ?_ ?_ ?_ ?_ ?_ ?_ ?_
    · exact buildW_workload_none _ rfl
    · exact buildW_record_count_some _ _ rfl
    · exact buildW_operation_count_some _ _ rfl
    · exact buildW_thread_count_none _ rfl
    · exact buildW_insert_count_none _ rfl
    · exact buildW_insert_start_none _ rfl
    · exact buildW_field_count_none _ rfl
    · exact buildW_field_length_none _ rfl
    · exact buildW_read_all_fields_some _ _ rfl
    · exact buildW_write_all_fields_none _ rfl
    · exact buildW_field_length_distribution_none _ rfl
    · exact buildW_read_proportion_some _ _ rfl
    · exact buildW_update_proportion_some _ _ rfl
    · exact buildW_insert_proportion_some _ _ rfl
    · exact buildW_read_modify_write_proportion_none _ rfl
    · exact buildW_scan_proportion_some _ _ rfl
    · exact buildW_max_scan_length_some _ _ rfl
    · exact buildW_scan_length_distribution_some _ _ rfl
    · exact buildW_insert_order_none _ rfl
    · exact buildW_request_distribution_some _ _ rfl
    · exact buildW_hotspot_data_fraction_none _ rfl
    · exact buildW_hotspot_operation_fraction_none _ rfl
    · exact buildW_max_execution_time_none _ rfl
    · exact buildW_table_none _ rfl
    · exact buildW_column_family_none _ rfl
    · exact buildW_measurement_type_none _ rfl
    · exact buildW_histogram_none _ rfl
    · exact buildW_timeseries_none _ rfl
  · refine Workload.ext ?_ ?_ ?_ ?_ ?_ ?_ ?_ ?_ ?_ ?_ ?_ ?_ ?_ ?_ ?_ ?_ ?_ ?_ ?_ ?_ ?_ ?_ ?_ ?_ ?_ ?_ ?_ ?_
    · exact buildW_workload_none _ rfl
    · exact buildW_record_count_some _ _ rfl
    · exact buildW_operation_count_some _ _ rfl
    · exact buildW_thread_count_none _ rfl
    · exact buildW_insert_count_none _ rfl
    · exact buildW_insert_start_none _ rfl
    · exact buildW_field_count_none _ rfl
    · exact buildW_field_length_none _ rfl
    · exact buildW_read_all_fields_some _ _ rfl
    · exact buildW_write_all_fields_none _ rfl
    · exact buildW_field_length_distribution_none _ rfl
    · exact buildW_read_proportion_some _ _ rfl
    · exact buildW_update_proportion_some _ _ rfl
    · exact buildW_insert_proportion_some _ _ rfl
    · exact buildW_read_modify_write_proportion_some _ _ rfl
    · exact buildW_scan_proportion_some _ _ rfl
    · exact buildW_max_scan_length_none _ rfl
    · exact buildW_scan_length_distribution_none _ rfl
    · exact buildW_insert_order_none _ rfl
    · exact buildW_request_distribution_some _ _ rfl
    · exact buildW_hotspot_data_fraction_none _ rfl
    · exact buildW_hotspot_operation_fraction_none _ rfl
    · exact buildW_max_execution_time_none _ rfl
    · exact buildW_table_none _ rfl
    · exact buildW_column_family_none _ rfl
    · exact buildW_measurement_type_none _ rfl
    · exact buildW_histogram_none _ rfl
    · exact buildW_timeseries_none _ rfl

/-- C9: the hotspot-data-fraction field keeps its mismatched canonical
wire key — it serializes under "readcount" (and under no
"hotspotdatafraction" key), parses from "readcount", and defaults to 0.2 —
while hotspot_operation_fraction uses the wire key "hotspotopnfraction". -/
theorem c9_hotspot_wire_keys :
    ∀ (w : Workload) (x : F64),
      (Workload.toToml w).root.lookup "readcount" =
        some (.float w.hotspot_data_fraction) ∧
      (Workload.toToml w).root.lookup "hotspotopnfraction" =
        some (.float w.hotspot_operation_fraction) ∧
      (Workload.toToml w).root.lookup "hotspotdatafraction" = none ∧
      deWorkload ⟨[("readcount", .float x)], []⟩ =
        .ok { Workload.default with hotspot_data_fraction := x } ∧
      deWorkload ⟨[("hotspotopnfraction", .float x)], []⟩ =
        .ok { Workload.default with hotspot_operation_fraction := x } ∧
      Workload.default.hotspot_data_fraction = F64.num 2 1 := by
  intro w x
  exact ⟨rfl, rfl, rfl, rfl, rfl, rfl⟩

/-- A string outside the Distribution variant names is rejected. -/
lemma dist_fromStr_none (s : String)
    (h : s ∉ ["constant", "uniform", "zipfian", "latest"]) :
    Distribution.fromStr s = none := by
  simp only [List.mem_cons, List.mem_singleton, not_or] at h
  obtain ⟨h1, h2, h3, h4⟩ := h
  simp [Distribution.fromStr, h1, h2, h3, h4]

/-- A string outside the InsertOrder variant names is rejected. -/
lemma io_fromStr_none (s : String) (h : s ∉ ["hashed", "ordered"]) :
    InsertOrder.fromStr s = none := by
  simp only [List.mem_cons, List.mem_singleton, not_or] at h
  obtain ⟨h1, h2⟩ := h
  simp [InsertOrder.fromStr, h1, h2]

/-- A string outside the MeasurementType variant names is rejected. -/
lemma mt_fromStr_none (s : String) (h : s ∉ ["histogram", "timeseries", "raw"]) :
    MeasurementType.fromStr s = none := by
  simp only [List.mem_cons, List.mem_singleton, not_or] at h
  obtain ⟨h1, h2, h3⟩ := h
  simp [MeasurementType.fromStr, h1, h2, h3]

/-- A document binding requestdistribution to a non-variant string fails
with an unknown-variant error. -/
lemma deW_requestdistribution_bad (s : String) (h : Distribution.fromStr s = none) :
    deWorkload ⟨[("requestdistribution", .str s)], []⟩ =
      .error (.unknownVariant "requestdistribution" s) := by
  simp [deWorkload, noScalarKeyTable, noTableAt, getStr, getNat, getBool,
    getF64, getEnum, getDurationSecs, getTable, List.lookup, h, Bind.bind,
    Except.bind, Pure.pure, Except.pure]

/-- A document binding insertorder to a non-variant string fails with an
unknown-variant error. -/
lemma deW_insertorder_bad (s : String) (h : InsertOrder.fromStr s = none) :
    deWorkload ⟨[("insertorder", .str s)], []⟩ =
      .error (.unknownVariant "insertorder" s) := by
  simp [deWorkload, noScalarKeyTable, noTableAt, getStr, getNat, getBool,
    getF64, getEnum, getDurationSecs, getTable, List.lookup, h, Bind.bind,
    Except.bind, Pure.pure, Except.pure]

/-- A document binding measurementtype to a non-variant string fails with
an unknown-variant error. -/
lemma deW_measurementtype_bad (s : String) (h : MeasurementType.fromStr s = none) :
    deWorkload ⟨[("measurementtype", .str s)], []⟩ =
      .error (.unknownVariant "measurementtype" s) := by
  simp [deWorkload, noScalarKeyTable, noTableAt, getStr, getNat, getBool,
    getF64, getEnum, getDurationSecs, getTable, List.lookup, h, Bind.bind,
    Except.bind, Pure.pure, Except.pure]

/-- C6: every variant of the three enums serializes as its canonical
lowercase name and that name parses back to the same variant; any string
outside a variant set is rejected by the variant lookup, and a document
assigning such a string to an enum key fails with an unknown-variant error
rather than substituting a default variant. -/
theorem c6_enum_round_trip_and_unknown_variant :
    (Distribution.toStr .Constant = "constant" ∧
     Distribution.toStr .Uniform = "uniform" ∧
     Distribution.toStr .Zipfian = "zipfian" ∧
     Distribution.toStr .Latest = "latest" ∧
     InsertOrder.toStr .Hashed = "hashed" ∧
     InsertOrder.toStr .Ordered = "ordered" ∧
     MeasurementType.toStr .Histogram = "histogram" ∧
     MeasurementType.toStr .Timeseries = "timeseries" ∧
     MeasurementType.toStr .Raw = "raw") ∧
    (∀ v : Distribution, Distribution.fromStr v.toStr = some v) ∧
    (∀ v : InsertOrder, InsertOrder.fromStr v.toStr = some v) ∧
    (∀ v : MeasurementType, MeasurementType.fromStr v.toStr = some v) ∧
    (∀ s, s ∉ ["constant", "uniform", "zipfian", "latest"] →
      Distribution.fromStr s = none) ∧
    (∀ s, s ∉ ["hashed", "ordered"] → InsertOrder.fromStr s = none) ∧
    (∀ s, s ∉ ["histogram", "timeseries", "raw"] →
      MeasurementType.fromStr s = none) ∧
    (∀ s, s ∉ ["constant", "uniform", "zipfian", "latest"] →
      deWorkload ⟨[("requestdistribution", .str s)], []⟩ =
        .error (.unknownVariant "requestdistribution" s)) ∧
    (∀ s, s ∉ ["hashed", "ordered"] →
      deWorkload ⟨[("insertorder", .str s)], []⟩ =
        .error (.unknownVariant "insertorder" s)) ∧
    (∀ s, s ∉ ["histogram", "timeseries", "raw"] →
      deWorkload ⟨[("measurementtype", .str s)], []⟩ =
        .error (.unknownVariant "measurementtype" s)) := by
  refine ⟨by decide, ?_, ?_, ?_, dist_fromStr_none, io_fromStr_none,
    mt_fromStr_none, ?_, ?_, ?_⟩
  · intro v
    cases v <;> decide
  · intro v
    cases v <;> decide
  · intro v
    cases v <;> decide
  · intro s h
    exact deW_requestdistribution_bad s (dist_fromStr_none s h)
  · intro s h
    exact deW_insertorder_bad s (io_fromStr_none s h)
  · intro s h
    exact deW_measurementtype_bad s (mt_fromStr_none s h)

/-- C6 witness: at the concrete non-variant string "bogus", the variant
lookup rejects and the document fails with an unknown-variant error. -/
theorem c6_witness :
    Distribution.fromStr "bogus" = none ∧
    deWorkload ⟨[("requestdistribution", .str "bogus")], []⟩ =
      .error (.unknownVariant "requestdistribution" "bogus") := by
  have h := c6_enum_round_trip_and_unknown_variant
  exact ⟨h.2.2.2.2.1 "bogus" (by decide), h.2.2.2.2.2.2.2.1 "bogus" (by decide)⟩

/-- Whole-second durations divide exactly into their second count. -/
lemma secsOf_whole (d : Duration) (h : d % 1000000000 = 0) :
    secsOf d = d / 1000000000 := by
  obtain ⟨k, rfl⟩ := Nat.dvd_of_mod_eq_zero h
  unfold secsOf
  rw [Nat.mul_add_div (by norm_num), Nat.mul_div_cancel_left _ (by norm_num)]
  norm_num

/-- Whole-millisecond durations divide exactly into their millisecond
count. -/
lemma millisOf_whole (d : Duration) (h : d % 1000000 = 0) :
    millisOf d = d / 1000000 := by
  obtain ⟨k, rfl⟩ := Nat.dvd_of_mod_eq_zero h
  unfold millisOf
  rw [Nat.mul_add_div (by norm_num), Nat.mul_div_cancel_left _ (by norm_num)]
  norm_num

/-- C8: in the serialized document, duration fields are integers —
maxexecutiontime carries the whole number of seconds, and the histogram
and timeseries sub-configs are nested tables whose buckets / granularity
keys carry whole numbers of milliseconds. -/
theorem c8_duration_encoding :
    ∀ w : Workload,
      w.max_execution_time % 1000000000 = 0 →
      w.histogram.buckets % 1000000 = 0 →
      w.timeseries.granularity % 1000000 = 0 →
      (Workload.toToml w).root.lookup "maxexecutiontime" =
        some (.int (Int.ofNat (w.max_execution_time / 1000000000))) ∧
      (Workload.toToml w).tables.lookup "histogram" =
        some [("buckets", .int (Int.ofNat (w.histogram.buckets / 1000000)))] ∧
      (Workload.toToml w).tables.lookup "timeseries" =
        some [("granularity", .int (Int.ofNat (w.timeseries.granularity / 1000000)))] := by
  intro w h1 h2 h3
  refine ⟨?_, ?_, ?_⟩
  · rw [← secsOf_whole _ h1]
    rfl
  · rw [← millisOf_whole _ h2]
    rfl
  · rw [← millisOf_whole _ h3]
    rfl

/-- C8 witness: a 90-second max execution time serializes as the integer
90, and the default 1000 ms buckets serialize as 1000. -/
theorem c8_witness :
    (Workload.toToml
        { Workload.default with max_execution_time := Duration.from_secs 90 }).root.lookup
      "maxexecutiontime" = some (.int 90) ∧
    (Workload.toToml Workload.default).tables.lookup "histogram" =
      some [("buckets", .int 1000)] := by
  have h1 := c8_duration_encoding
    { Workload.default with max_execution_time := Duration.from_secs 90 }
    (by decide) (by decide) (by decide)
  have h2 := c8_duration_encoding Workload.default (by decide) (by decide) (by decide)
  exact ⟨h1.1, h2.2.1⟩

/-- C1 counterexample: failures are not surfaced as typed results — a
syntactically invalid document, an ill-typed present value, an unknown
enum variant, and an unreadable file path each make `from_toml_str` /
`from_toml_file` panic rather than return an error to the caller. -/
theorem c1_counterexample_failures_panic :
    Workload.from_toml_str "recordcount =" = .panicked ∧
    Workload.from_toml_str "recordcount = true" = .panicked ∧
    Workload.from_toml_str "requestdistribution = \"bogus\"" = .panicked ∧
    Workload.from_toml_file (fun _ => none) "workloads/workloada.toml" = .panicked := by
  decide

/-- C1 amended: `from_toml_str` and `from_toml_file` unwrap the underlying
results, so every failure — malformed document, uncoercible value, unknown
enum variant, or unreadable file — panics the hosting process instead of
being returned as a typed result; only successful parses return a value. -/
theorem c1_amended_failures_panic :
    (∀ s e, toml_from_str s = .error e → Workload.from_toml_str s = .panicked) ∧
    (∀ s w, toml_from_str s = .ok w → Workload.from_toml_str s = .ok w) ∧
    (∀ (rf : String → Option String) p, rf p = none →
      Workload.from_toml_file rf p = .panicked) ∧
    (∀ (rf : String → Option String) p c, rf p = some c →
      Workload.from_toml_file rf p = Workload.from_toml_str c) := by
  refine ⟨?_, ?_, ?_, ?_⟩
  · intro s e h
    unfold Workload.from_toml_str
    rw [h]
  · intro s w h
    unfold Workload.from_toml_str
    rw [h]
  · intro rf p h
    unfold Workload.from_toml_file
    rw [h]
  · intro rf p c h
    unfold Workload.from_toml_file
    rw [h]

/-- C1 amended witness: the malformed document "=" makes `from_toml_str`
panic, and an absent file makes `from_toml_file` panic. -/
theorem c1_amended_witness :
    Workload.from_toml_str "=" = .panicked ∧
    Workload.from_toml_file (fun _ => none) "x.toml" = .panicked :=
  ⟨c1_amended_failures_panic.1 "=" (.documentError .malformed) (by decide),
   c1_amended_failures_panic.2.2.1 (fun _ => none) "x.toml" rfl⟩

lemma digitVal_digitChar : ∀ d < 10, digitVal (digitChar d) = d := by decide

lemma isDigitC_digitChar : ∀ d < 10, isDigitC (digitChar d) = true := by decide

lemma natDigitsRev_lt : ∀ (fuel n : Nat), ∀ x ∈ natDigitsRev fuel n, x < 10 := by
  intro fuel
  induction fuel with
  | zero => intro n x hx; simp [natDigitsRev] at hx
  | succ f ih =>
      intro n x hx
      cases n with
      | zero => simp [natDigitsRev] at hx
      | succ m =>
          simp only [natDigitsRev, List.mem_cons] at hx
          rcases hx with rfl | hx
          · exact Nat.mod_lt _ (by norm_num)
          · exact ih _ _ hx

lemma valRev_natDigitsRev : ∀ (fuel n : Nat), n ≤ fuel →
    valRev (natDigitsRev fuel n) = n := by
  intro fuel
  induction fuel with
  | zero => intro n h; interval_cases n; rfl
  | succ f ih =>
      intro n h
      cases n with
      | zero => rfl
      | succ m =>
          have hd : (m + 1) / 10 ≤ f := by omega
          simp only [natDigitsRev, valRev, List.foldr_cons]
          have := ih ((m + 1) / 10) hd
          unfold valRev at this
          rw [this]
          omega

lemma printNat_all_digits (n : Nat) : ∀ c ∈ printNat n, isDigitC c = true := by
  intro c hc
  unfold printNat at hc
  by_cases h : n = 0
  · rw [if_pos h] at hc
    simp at hc
    subst hc
    decide
  · rw [if_neg h] at hc
    simp only [List.mem_reverse, List.mem_map] at hc
    obtain ⟨d, hd, rfl⟩ := hc
    exact isDigitC_digitChar d (natDigitsRev_lt n n d hd)

lemma printNat_ne_nil (n : Nat) : printNat n ≠ [] := by
  unfold printNat
  by_cases h : n = 0
  · rw [if_pos h]
    simp
  · rw [if_neg h]
    simp only [ne_eq, List.reverse_eq_nil_iff, List.map_eq_nil_iff]
    cases hn : n with
    | zero => exact absurd hn h
    | succ m => simp [natDigitsRev]

lemma foldr_digits_map (ds : List Nat) (hds : ∀ x ∈ ds, x < 10) :
    List.foldr (fun c a => a * 10 + digitVal c) 0 (ds.map digitChar) = valRev ds := by
  induction ds with
  | nil => rfl
  | cons d t ih =>
      simp only [List.map_cons, List.foldr_cons, valRev, List.foldr_cons]
      rw [ih fun x hx => hds x (List.mem_cons_of_mem _ hx),
        digitVal_digitChar d (hds d (List.mem_cons_self _ _))]
      rfl

lemma digitsVal_printNat (n : Nat) : digitsVal (printNat n) = n := by
  by_cases h : n = 0
  · subst h; decide
  · unfold printNat digitsVal
    rw [if_neg h, List.foldl_reverse, foldr_digits_map _ (natDigitsRev_lt n n),
      valRev_natDigitsRev n n le_rfl]

lemma natDigitsRev_length_le : ∀ (k fuel n : Nat), n < 10 ^ k →
    (natDigitsRev fuel n).length ≤ k := by
  intro k
  induction k with
  | zero =>
      intro fuel n h
      simp only [pow_zero, Nat.lt_one_iff] at h
      subst h
      cases fuel <;> simp [natDigitsRev]
  | succ k ih =>
      intro fuel n h
      cases fuel with
      | zero => simp [natDigitsRev]
      | succ f =>
          cases n with
          | zero => simp [natDigitsRev]
          | succ m =>
              simp only [natDigitsRev, List.length_cons]
              have : (m + 1) / 10 < 10 ^ k := by
                rw [Nat.div_lt_iff_lt_mul (by norm_num)]
                calc m + 1 < 10 ^ (k + 1) := h
                _ = 10 ^ k * 10 := by ring
              exact Nat.succ_le_succ (ih f _ this)

lemma printNat_length_le (k n : Nat) (hk : 1 ≤ k) (h : n < 10 ^ k) :
    (printNat n).length ≤ k := by
  unfold printNat
  by_cases h0 : n = 0
  · rw [if_pos h0]
    simpa using hk
  · rw [if_neg h0]
    simp only [List.length_reverse, List.length_map]
    exact natDigitsRev_length_le k n n h

lemma takeWhile_all_append (p : Char → Bool) (xs ys : List Char)
    (hx : ∀ c ∈ xs, p c = true) (hy : ∀ y t, ys = y :: t → p y = false) :
    (xs ++ ys).takeWhile p = xs ∧ (xs ++ ys).dropWhile p = ys := by
  induction xs with
  | nil =>
      simp only [List.nil_append]
      cases ys with
      | nil => simp
      | cons y t => simp [List.takeWhile, List.dropWhile, hy y t rfl]
  | cons x xt ih =>
      have hpx : p x = true := hx x (List.mem_cons_self _ _)
      have := ih fun c hc => hx c (List.mem_cons_of_mem _ hc)
      simp [List.takeWhile, List.dropWhile, hpx, this.1, this.2]

lemma natDigitsRev_getLast_pos : ∀ (fuel n : Nat), n ≤ fuel → 0 < n →
    ∀ d, (natDigitsRev fuel n).getLast? = some d → 1 ≤ d := by
  intro fuel
  induction fuel with
  | zero => intro n hle hpos d hd; omega
  | succ f ih =>
      intro n hle hpos d hd
      cases n with
      | zero => omega
      | succ m =>
          rw [show natDigitsRev (f + 1) (m + 1) =
            ((m + 1) % 10) :: natDigitsRev f ((m + 1) / 10) from rfl] at hd
          by_cases hq : (m + 1) / 10 = 0
          · have htail : natDigitsRev f ((m + 1) / 10) = [] := by
              rw [hq]
              cases f <;> rfl
            rw [htail] at hd
            simp only [List.getLast?_singleton, Option.some_inj] at hd
            omega
          · have hq1 : 1 ≤ (m + 1) / 10 := Nat.one_le_iff_ne_zero.mpr hq
            have hle2 : (m + 1) / 10 ≤ f := by
              have := Nat.div_lt_self (Nat.succ_pos m) (by norm_num : 1 < 10)
              omega
            cases htail : natDigitsRev f ((m + 1) / 10) with
            | nil =>
                exfalso
                cases hf : f with
                | zero => omega
                | succ f2 =>
                    cases hq2 : (m + 1) / 10 with
                    | zero => omega
                    | succ q2 =>
                        rw [hf, hq2] at htail
                        simp [natDigitsRev] at htail
            | cons y ys =>
                rw [htail] at hd
                rw [List.getLast?_cons_cons] at hd
                refine ih _ hle2 hq1 d ?_
                rw [htail]
                exact hd

lemma leadingZero_printNat (n : Nat) : leadingZero (printNat n) = false := by
  by_cases h0 : n = 0
  · subst h0; rfl
  · unfold printNat
    rw [if_neg h0]
    cases hrev : ((natDigitsRev n n).map digitChar).reverse with
    | nil => rfl
    | cons c rest =>
        cases rest with
        | nil => rfl
        | cons c2 rest2 =>
            show (c == '0') = false
            have hc : ((natDigitsRev n n).map digitChar).getLast? = some c := by
              rw [← List.head?_reverse, hrev]
              rfl
            rw [List.getLast?_map] at hc
            cases hd : (natDigitsRev n n).getLast? with
            | none => rw [hd] at hc; simp at hc
            | some d =>
                rw [hd] at hc
                simp only [Option.map_some'] at hc
                have hd1 : 1 ≤ d := natDigitsRev_getLast_pos n n le_rfl
                  (Nat.pos_of_ne_zero h0) d hd
                have hd10 : d < 10 := by
                  have hmem : d ∈ natDigitsRev n n := by
                    have hne : natDigitsRev n n ≠ [] := by
                      intro he
                      rw [he] at hd
                      simp at hd
                    rw [List.getLast?_eq_getLast _ hne, Option.some_inj] at hd
                    rw [← hd]
                    exact List.getLast_mem hne
                  exact natDigitsRev_lt n n d hmem
                have hcc : digitChar d = c := by injection hc
                rw [← hcc]
                have hfin : ∀ x, 1 ≤ x → x < 10 → (digitChar x == '0') = false := by
                  decide
                exact hfin d hd1 hd10

lemma parseUnsignedNumber_printNat (n : Nat) :
    parseUnsignedNumber (printNat n) = some (.int (Int.ofNat n), []) := by
  have hsplit := takeWhile_all_append isDigitC (printNat n) []
    (printNat_all_digits n) (by intro y t h; simp at h)
  rw [List.append_nil] at hsplit
  unfold parseUnsignedNumber
  rw [hsplit.1, hsplit.2]
  rw [if_neg (by simpa using printNat_ne_nil n)]
  rw [if_neg (by simp [leadingZero_printNat])]
  rw [if_neg (by simp)]
  rw [digitsVal_printNat]

lemma digitsVal_replicate_zero (k : Nat) (ds : List Char) :
    digitsVal (List.replicate k '0' ++ ds) = digitsVal ds := by
  induction k with
  | zero => rfl
  | succ m ih =>
      simp only [List.replicate_succ, List.cons_append]
      unfold digitsVal at ih ⊢
      simp only [List.foldl_cons]
      have h0 : (0 : Nat) * 10 + digitVal '0' = 0 := by decide
      rw [h0]
      exact ih

lemma printFrac_all_digits (r e : Nat) : ∀ c ∈ printFrac r e, isDigitC c = true := by
  intro c hc
  unfold printFrac at hc
  rw [List.mem_append] at hc
  rcases hc with hc | hc
  · rw [List.eq_of_mem_replicate hc]
    decide
  · exact printNat_all_digits r c hc

lemma printFrac_length (r e : Nat) (he : 1 ≤ e) (hr : r < 10 ^ e) :
    (printFrac r e).length = e := by
  unfold printFrac
  have := printNat_length_le e r he hr
  simp only [List.length_append, List.length_replicate]
  omega

lemma digitsVal_printFrac (r e : Nat) : digitsVal (printFrac r e) = r := by
  unfold printFrac
  rw [digitsVal_replicate_zero, digitsVal_printNat]

lemma printFrac_ne_nil (r e : Nat) (he : 1 ≤ e) (hr : r < 10 ^ e) :
    printFrac r e ≠ [] := by
  intro hnil
  have := printFrac_length r e he hr
  rw [hnil] at this
  simp at this
  omega

lemma parseUnsignedNumber_float (a e : Nat) (he : 1 ≤ e) :
    parseUnsignedNumber
        (printNat (a / 10 ^ e) ++ '.' :: printFrac (a % 10 ^ e) e) =
      some (.float (F64.normalize (Int.ofNat a) e), []) := by
  have hfr : a % 10 ^ e < 10 ^ e := Nat.mod_lt _ (by positivity)
  have hsplit := takeWhile_all_append isDigitC (printNat (a / 10 ^ e))
    ('.' :: printFrac (a % 10 ^ e) e) (printNat_all_digits _)
    (by intro y t h; rw [List.cons.injEq] at h; rw [← h.1]; decide)
  have hsplit2 := takeWhile_all_append isDigitC (printFrac (a % 10 ^ e) e) []
    (printFrac_all_digits _ _) (by intro y t h; simp at h)
  rw [List.append_nil] at hsplit2
  unfold parseUnsignedNumber
  rw [hsplit.1, hsplit.2]
  rw [if_neg (by simpa using printNat_ne_nil (a / 10 ^ e))]
  rw [if_neg (by simp [leadingZero_printNat])]
  rw [if_pos (by simp)]
  simp only [List.drop_succ_cons, List.drop_zero]
  rw [hsplit2.1, hsplit2.2]
  rw [if_neg (by simpa using printFrac_ne_nil _ _ he hfr)]
  rw [digitsVal_printNat, digitsVal_printFrac, printFrac_length _ _ he hfr,
    Nat.div_add_mod']

lemma normAux_val : ∀ (fuel : Nat) (m : Int) (e : Nat),
    m * (10 : Int) ^ (normAux fuel m e).2 = (normAux fuel m e).1 * 10 ^ e := by
  intro fuel
  induction fuel with
  | zero => intro m e; rfl
  | succ f ih =>
      intro m e
      cases e with
      | zero => rfl
      | succ e' =>
          unfold normAux
          by_cases hd : m % 10 == 0
          · rw [if_pos hd]
            have hdvd : (10 : Int) ∣ m :=
              Int.dvd_of_emod_eq_zero (by exact beq_iff_eq.mp hd)
            obtain ⟨q, rfl⟩ := hdvd
            have hq : 10 * q / 10 = q := Int.mul_ediv_cancel_left q (by norm_num)
            rw [hq]
            have := ih q e'
            calc 10 * q * 10 ^ (normAux f q e').2
                = 10 * (q * 10 ^ (normAux f q e').2) := by ring
            _ = 10 * ((normAux f q e').1 * 10 ^ e') := by rw [this]
            _ = (normAux f q e').1 * 10 ^ (e' + 1) := by ring
          · rw [if_neg hd]

lemma beq_normalize (m : Int) (e : Nat) :
    F64.beq (.num m e) (F64.normalize m e) = true := by
  unfold F64.normalize F64.beq
  exact beq_iff_eq.mpr (normAux_val e m e)

lemma normalize_mul_ten (m : Int) : F64.normalize (m * 10) 1 = .num m 0 := by
  unfold F64.normalize normAux
  have hd : (m * 10 % 10 == 0) = true := beq_iff_eq.mpr (Int.mul_emod_left m 10)
  rw [if_pos hd]
  have hq : m * 10 / 10 = m := Int.mul_ediv_cancel m (by norm_num)
  simp [normAux, hq]

lemma normAux_neg : ∀ (fuel : Nat) (m : Int) (e : Nat),
    normAux fuel (-m) e = (-(normAux fuel m e).1, (normAux fuel m e).2) := by
  intro fuel
  induction fuel with
  | zero => intro m e; rfl
  | succ f ih =>
      intro m e
      cases e with
      | zero => rfl
      | succ e'
      =>
          unfold normAux
          by_cases hd : m % 10 == 0
          · have hm : m % 10 = 0 := beq_iff_eq.mp hd
            have hneg : (-m % 10 == 0) = true := beq_iff_eq.mpr (by omega)
            rw [if_pos hd, if_pos hneg]
            obtain ⟨q, rfl⟩ := Int.dvd_of_emod_eq_zero hm
            have h1 : 10 * q / 10 = q := Int.mul_ediv_cancel_left q (by norm_num)
            have h2 : -(10 * q) / 10 = -q := by
              rw [show -(10 * q) = 10 * -q by ring]
              exact Int.mul_ediv_cancel_left _ (by norm_num)
            rw [h1, h2, ih]
          · have hm : ¬(m % 10 = 0) := fun hh => hd (beq_iff_eq.mpr hh)
            have hneg : ¬(-m % 10 == 0) = true := by
              simp only [beq_iff_eq]
              omega
            rw [if_neg hd, if_neg hneg]

lemma negScalar_float_normalize (a : Int) (e : Nat) :
    negScalar (.float (F64.normalize a e)) = .float (F64.normalize (-a) e) := by
  unfold F64.normalize negScalar
  rw [normAux_neg e a e]

lemma canonScalar_float (f : F64) : canonScalar (.float f) = .float (canonF64 f) := by
  cases f <;> rfl

lemma not_take_cons (c : Char) (cs : List Char) (d : Char) (ds : List Char)
    (h : c ≠ d) (k : Nat) : ¬((c :: cs).take (k + 1) = d :: ds) := by
  simp only [List.take_succ_cons]
  intro hh
  rw [List.cons.injEq] at hh
  exact h hh.1

lemma parseScalar_digit (c : Char) (cs : List Char) (h : isDigitC c = true) :
    parseScalar (c :: cs) = (parseUnsignedNumber (c :: cs)).bind checkIntRange := by
  have hne : ∀ d : Char, isDigitC d = false → c ≠ d := by
    intro d hd he
    rw [he, hd] at h
    exact absurd h (by simp)
  unfold parseScalar
  rw [if_neg (not_take_cons _ _ _ _ (hne _ (by decide)) 0),
    if_neg (not_take_cons _ _ _ _ (hne _ (by decide)) 0),
    if_neg (not_take_cons _ _ _ _ (hne _ (by decide)) 3),
    if_neg (not_take_cons _ _ _ _ (hne _ (by decide)) 4),
    if_neg (not_take_cons _ _ _ _ (hne _ (by decide)) 2)]

lemma parseScalar_dash (cs : List Char) :
    parseScalar ('-' :: cs) =
      (parseUnsignedNumber cs).bind fun p => checkIntRange (negScalar p.1, p.2) := by
  unfold parseScalar
  rw [if_neg (not_take_cons _ _ _ _ (by decide) 0),
    if_pos (show List.take 1 ('-' :: cs) = ['-'] from rfl)]
  simp only [List.drop_succ_cons, List.drop_zero]

lemma parseScalar_quote (cs : List Char) :
    parseScalar ('"' :: cs) = (scanString cs).map fun p => (.str ⟨p.1⟩, p.2) := by
  unfold parseScalar
  rw [if_pos (show List.take 1 ('"' :: cs) = ['"'] from rfl)]
  simp only [List.drop_succ_cons, List.drop_zero]

lemma hexDigitVal_hexDigitChar : ∀ x < 16, hexDigitVal (hexDigitChar x) = some x := by
  decide

lemma scanString_quote (l : List Char) : scanString ('"' :: l) = some ([], l) := by
  rw [scanString.eq_def]
  dsimp only
  rw [if_pos rfl]

lemma scanString_esc (c2 : Char) (l : List Char) (hu : c2 ≠ 'u') :
    scanString ('\\' :: c2 :: l) =
      ((unescapeChar c2).bind fun c' => (scanString l).bind fun p =>
        some (c' :: p.1, p.2)) := by
  rw [scanString.eq_def]
  dsimp only
  rw [if_neg (by decide), if_pos rfl, if_neg hu]
  rfl

lemma scanString_u (x1 x2 x3 x4 : Char) (tail : List Char) :
    scanString ('\\' :: 'u' :: x1 :: x2 :: x3 :: x4 :: tail) =
      ((hexDigitVal x1).bind fun d1 => (hexDigitVal x2).bind fun d2 =>
        (hexDigitVal x3).bind fun d3 => (hexDigitVal x4).bind fun d4 =>
        (scanString tail).bind fun p =>
        some (Char.ofNat (d1 * 4096 + d2 * 256 + d3 * 16 + d4) :: p.1, p.2)) := by
  rw [scanString.eq_def]
  dsimp only
  rw [if_neg (by decide), if_pos rfl, if_pos rfl]
  rfl

lemma scanString_plain (c : Char) (l : List Char) (h1 : c ≠ '"') (h2 : c ≠ '\\') :
    scanString (c :: l) = (scanString l).bind fun p => some (c :: p.1, p.2) := by
  rw [scanString.eq_def]
  dsimp only
  rw [if_neg h1, if_neg h2]
  rfl

lemma scanString_escape : ∀ (cs rest : List Char),
    scanString (escapeList cs ++ ('"' :: rest)) = some (cs, rest) := by
  intro cs
  induction cs with
  | nil =>
      intro rest
      simp only [escapeList, List.map_nil, List.flatten_nil, List.nil_append]
      exact scanString_quote rest
  | cons c t ih =>
      intro rest
      have hexp : escapeList (c :: t) = escapeChar c ++ escapeList t := by
        simp [escapeList]
      rw [hexp, List.append_assoc]
      by_cases h1 : c = '"'
      · subst h1
        rw [show escapeChar '"' = ['\\', '"'] from rfl]
        simp only [List.cons_append, List.nil_append]
        rw [scanString_esc _ _ (by decide), show unescapeChar '"' = some '"' from rfl,
          ih rest]
        rfl
      · by_cases h2 : c = '\\'
        · subst h2
          rw [show escapeChar '\\' = ['\\', '\\'] from rfl]
          simp only [List.cons_append, List.nil_append]
          rw [scanString_esc _ _ (by decide),
            show unescapeChar '\\' = some '\\' from rfl, ih rest]
          rfl
        · by_cases h3 : c = Char.ofNat 8
          · subst h3
            rw [show escapeChar (Char.ofNat 8) = ['\\', 'b'] from by decide]
            simp only [List.cons_append, List.nil_append]
            rw [scanString_esc _ _ (by decide),
              show unescapeChar 'b' = some (Char.ofNat 8) from by decide, ih rest]
            rfl
          · by_cases h4 : c = Char.ofNat 9
            · subst h4
              rw [show escapeChar (Char.ofNat 9) = ['\\', 't'] from by decide]
              simp only [List.cons_append, List.nil_append]
              rw [scanString_esc _ _ (by decide),
                show unescapeChar 't' = some (Char.ofNat 9) from by decide, ih rest]
              rfl
            · by_cases h5 : c = Char.ofNat 10
              · subst h5
                rw [show escapeChar (Char.ofNat 10) = ['\\', 'n'] from by decide]
                simp only [List.cons_append, List.nil_append]
                rw [scanString_esc _ _ (by decide),
                  show unescapeChar 'n' = some (Char.ofNat 10) from by decide,
                  ih rest]
                rfl
              · by_cases h6 : c = Char.ofNat 12
                · subst h6
                  rw [show escapeChar (Char.ofNat 12) = ['\\', 'f'] from by decide]
                  simp only [List.cons_append, List.nil_append]
                  rw [scanString_esc _ _ (by decide),
                    show unescapeChar 'f' = some (Char.ofNat 12) from by decide,
                    ih rest]
                  rfl
                · by_cases h7 : c = Char.ofNat 13
                  · subst h7
                    rw [show escapeChar (Char.ofNat 13) = ['\\', 'r'] from by decide]
                    simp only [List.cons_append, List.nil_append]
                    rw [scanString_esc _ _ (by decide),
                      show unescapeChar 'r' = some (Char.ofNat 13) from by decide,
                      ih rest]
                    rfl
                  · by_cases h8 : c.toNat < 32
                    · have hesc : escapeChar c =
                          ['\\', 'u', hexDigitChar (c.toNat / 4096),
                           hexDigitChar (c.toNat / 256 % 16),
                           hexDigitChar (c.toNat / 16 % 16),
                           hexDigitChar (c.toNat % 16)] := by
                        unfold escapeChar
                        rw [if_neg h1, if_neg h2, if_neg h3, if_neg h4, if_neg h5,
                          if_neg h6, if_neg h7, if_pos h8]
                      rw [hesc]
                      simp only [List.cons_append, List.nil_append]
                      rw [scanString_u,
                        hexDigitVal_hexDigitChar _ (by omega),
                        hexDigitVal_hexDigitChar _ (by omega),
                        hexDigitVal_hexDigitChar _ (Nat.mod_lt _ (by norm_num)),
                        hexDigitVal_hexDigitChar _ (Nat.mod_lt _ (by norm_num)),
                        ih rest]
                      simp only [Option.bind_some, Option.some_bind]
                      have hsum : c.toNat / 4096 * 4096 + c.toNat / 256 % 16 * 256 +
                          c.toNat / 16 % 16 * 16 + c.toNat % 16 = c.toNat := by
                        omega
                      rw [hsum, Char.ofNat_toNat]
                    · have hesc : escapeChar c = [c] := by
                        unfold escapeChar
                        rw [if_neg h1, if_neg h2, if_neg h3, if_neg h4, if_neg h5,
                          if_neg h6, if_neg h7, if_neg h8]
                      rw [hesc]
                      simp only [List.cons_append, List.nil_append]
                      rw [scanString_plain c _ h1 h2, ih rest]
                      rfl

lemma parseScalar_of_digit_head (l1 l2 : List Char) (h1 : l1 ≠ [])
    (hd : ∀ c ∈ l1, isDigitC c = true) :
    parseScalar (l1 ++ l2) = (parseUnsignedNumber (l1 ++ l2)).bind checkIntRange := by
  cases l1 with
  | nil => exact absurd rfl h1
  | cons c cs =>
      simp only [List.cons_append]
      exact parseScalar_digit _ _ (hd c (List.mem_cons_self _ _))

lemma printFrac_zero_one : printFrac 0 1 = ['0'] := by decide

lemma core_zero_eq (a : Nat) : printNat a ++ (['.', '0'] : List Char) =
    printNat (a * 10 / 10 ^ 1) ++ '.' :: printFrac (a * 10 % 10 ^ 1) 1 := by
  have h1 : a * 10 / 10 ^ 1 = a := by omega
  have h2 : a * 10 % 10 ^ 1 = 0 := by omega
  rw [h1, h2, printFrac_zero_one]

lemma parseUnsignedNumber_core (a e : Nat) :
    parseUnsignedNumber (if e = 0 then printNat a ++ ['.', '0']
      else printNat (a / 10 ^ e) ++ '.' :: printFrac (a % 10 ^ e) e) =
      some (.float (F64.normalize (Int.ofNat a) e), []) := by
  by_cases he : e = 0
  · subst he
    rw [if_pos rfl, core_zero_eq, parseUnsignedNumber_float _ _ le_rfl]
    rw [show (Int.ofNat (a * 10)) = Int.ofNat a * 10 by
      rw [Int.ofNat_eq_natCast, Int.ofNat_eq_natCast]; push_cast; ring]
    rw [normalize_mul_ten]
    rfl
  · rw [if_neg he, parseUnsignedNumber_float _ _ (Nat.one_le_iff_ne_zero.mpr he)]

lemma parseScalar_core (a e : Nat) :
    parseScalar (if e = 0 then printNat a ++ ['.', '0']
      else printNat (a / 10 ^ e) ++ '.' :: printFrac (a % 10 ^ e) e) =
      (parseUnsignedNumber (if e = 0 then printNat a ++ ['.', '0']
        else printNat (a / 10 ^ e) ++ '.' ::
          printFrac (a % 10 ^ e) e)).bind checkIntRange := by
  by_cases he : e = 0
  · rw [if_pos he, parseScalar_of_digit_head _ _ (printNat_ne_nil _)
      (printNat_all_digits _)]
  · rw [if_neg he, parseScalar_of_digit_head _ _ (printNat_ne_nil _)
      (printNat_all_digits _)]

lemma parseScalar_print (v : Scalar) (hv : scalarInRange v = true) :
    parseScalar (printScalar v) = some (canonScalar v, []) := by
  cases v with
  | bool b => cases b <;> decide
  | str s =>
      show parseScalar ('"' :: (escapeList s.data ++ ['"'])) = _
      rw [parseScalar_quote]
      rw [show (escapeList s.data ++ ['"'] : List Char) =
        escapeList s.data ++ ('"' :: []) from rfl]
      rw [scanString_escape]
      rfl
  | int n =>
      show parseScalar (printInt n) = _
      unfold printInt
      by_cases hn : n < 0
      · rw [if_pos hn, parseScalar_dash, parseUnsignedNumber_printNat]
        have habs : -(Int.ofNat n.natAbs) = n := by
          rw [Int.ofNat_eq_natCast]; omega
        show checkIntRange (negScalar (Scalar.int (Int.ofNat n.natAbs)), []) = _
        show checkIntRange (Scalar.int (-(Int.ofNat n.natAbs)), []) = _
        rw [habs]
        show (if inI64 n = true then some (Scalar.int n, []) else none) = _
        rw [if_pos (show inI64 n = true from hv)]
        rfl
      · rw [if_neg hn]
        rw [show printNat n.natAbs = printNat n.natAbs ++ ([] : List Char) from
          (List.append_nil _).symm]
        rw [parseScalar_of_digit_head _ _ (printNat_ne_nil _) (printNat_all_digits _)]
        rw [List.append_nil, parseUnsignedNumber_printNat]
        have habs : (Int.ofNat n.natAbs) = n := by
          rw [Int.ofNat_eq_natCast]; omega
        show checkIntRange (Scalar.int (Int.ofNat n.natAbs), []) = _
        rw [habs]
        show (if inI64 n = true then some (Scalar.int n, []) else none) = _
        rw [if_pos (show inI64 n = true from hv)]
        rfl
  | float f =>
      cases f with
      | nan => decide
      | num m e =>
          rw [show printScalar (.float (.num m e)) = (if m < 0 then
              '-' :: (if e = 0 then printNat m.natAbs ++ ['.', '0']
                else printNat (m.natAbs / 10 ^ e) ++ '.' ::
                  printFrac (m.natAbs % 10 ^ e) e)
            else (if e = 0 then printNat m.natAbs ++ ['.', '0']
              else printNat (m.natAbs / 10 ^ e) ++ '.' ::
                printFrac (m.natAbs % 10 ^ e) e)) from rfl]
          by_cases hm : m < 0
          · rw [if_pos hm, parseScalar_dash, parseUnsignedNumber_core]
            show checkIntRange
              (negScalar (Scalar.float (F64.normalize (Int.ofNat m.natAbs) e)), []) = _
            rw [show negScalar (.float (F64.normalize (Int.ofNat m.natAbs) e)) =
              .float (F64.normalize (-(Int.ofNat m.natAbs)) e) from
              negScalar_float_normalize _ _]
            have habs : -(Int.ofNat m.natAbs) = m := by
              rw [Int.ofNat_eq_natCast]; omega
            rw [habs]
            rfl
          · rw [if_neg hm, parseScalar_core, parseUnsignedNumber_core]
            have habs : (Int.ofNat m.natAbs) = m := by
              rw [Int.ofNat_eq_natCast]; omega
            show checkIntRange
              (Scalar.float (F64.normalize (Int.ofNat m.natAbs) e), []) = _
            rw [habs]
            rfl

lemma skipSpaces_cons_not_space (c : Char) (l : List Char) (h : c ≠ ' ') :
    skipSpaces (c :: l) = c :: l := by
  simp [skipSpaces, List.dropWhile_cons, beq_eq_false_iff_ne.mpr h]

lemma digit_ne (c : Char) (h : isDigitC c = true) (d : Char)
    (hd : isDigitC d = false) : c ≠ d := by
  intro he
  rw [he, hd] at h
  exact absurd h (by simp)

lemma skipSpaces_printNat_append (x : Nat) (l2 : List Char) :
    skipSpaces (printNat x ++ l2) = printNat x ++ l2 := by
  cases hp : printNat x with
  | nil => exact absurd hp (printNat_ne_nil x)
  | cons c cs =>
      have hd : isDigitC c = true :=
        printNat_all_digits x c (by rw [hp]; exact List.mem_cons_self _ _)
      simp only [List.cons_append]
      exact skipSpaces_cons_not_space _ _ (digit_ne c hd ' ' (by decide))

lemma skipSpaces_printScalar (v : Scalar) :
    skipSpaces (printScalar v) = printScalar v := by
  cases v with
  | bool b => cases b <;> rfl
  | str s => rfl
  | int n =>
      show skipSpaces (printInt n) = printInt n
      unfold printInt
      by_cases hn : n < 0
      · rw [if_pos hn]
        exact skipSpaces_cons_not_space _ _ (by decide)
      · rw [if_neg hn]
        rw [show printNat n.natAbs = printNat n.natAbs ++ ([] : List Char) from
          (List.append_nil _).symm]
        exact skipSpaces_printNat_append _ _
  | float f =>
      cases f with
      | nan => rfl
      | num m e =>
          rw [show printScalar (.float (.num m e)) = (if m < 0 then
              '-' :: (if e = 0 then printNat m.natAbs ++ ['.', '0']
                else printNat (m.natAbs / 10 ^ e) ++ '.' ::
                  printFrac (m.natAbs % 10 ^ e) e)
            else (if e = 0 then printNat m.natAbs ++ ['.', '0']
              else printNat (m.natAbs / 10 ^ e) ++ '.' ::
                printFrac (m.natAbs % 10 ^ e) e)) from rfl]
          by_cases hm : m < 0
          · rw [if_pos hm]
            exact skipSpaces_cons_not_space _ _ (by decide)
          · rw [if_neg hm]
            by_cases he : e = 0
            · rw [if_pos he]
              exact skipSpaces_printNat_append _ _
            · rw [if_neg he]
              exact skipSpaces_printNat_append _ _

lemma classify_kv (k : String) (v : Scalar) (hk1 : k.data ≠ [])
    (hk2 : ∀ c ∈ k.data, isBareKeyChar c = true)
    (hv : scalarInRange v = true) :
    classifyLine (printKVLine k v) = .ok (.kv k (canonScalar v)) := by
  have hspan := takeWhile_all_append isBareKeyChar k.data
    (' ' :: '=' :: ' ' :: printScalar v) hk2
    (by intro y t h; injection h with h1 _; rw [← h1]; decide)
  have hss : skipSpaces (printKVLine k v) =
      k.data ++ (' ' :: '=' :: ' ' :: printScalar v) := by
    show skipSpaces (k.data ++ (' ' :: '=' :: ' ' :: printScalar v)) = _
    cases hdata : k.data with
    | nil => exact absurd hdata hk1
    | cons c0 k2 =>
        have hc0 : isBareKeyChar c0 = true := by
          apply hk2
          rw [hdata]
          exact List.mem_cons_self _ _
        simp only [List.cons_append]
        exact skipSpaces_cons_not_space _ _
          (by
            intro he
            rw [he] at hc0
            exact absurd hc0 (by decide))
  have hhead : ∃ c0 k2, k.data = c0 :: k2 ∧ isBareKeyChar c0 = true := by
    cases hdata : k.data with
    | nil => exact absurd hdata hk1
    | cons c0 k2 =>
        refine ⟨c0, k2, rfl, ?_⟩
        apply hk2
        rw [hdata]
        exact List.mem_cons_self _ _
  obtain ⟨c0, k2, hdata, hc0⟩ := hhead
  unfold classifyLine
  rw [hss]
  rw [if_neg (by rw [hdata]; simp)]
  rw [if_neg (by
    rw [hdata]
    simp only [List.cons_append]
    exact not_take_cons _ _ _ _
      (by
        intro he
        rw [he] at hc0
        exact absurd hc0 (by decide)) 0)]
  rw [if_neg (by
    rw [hdata]
    simp only [List.cons_append]
    exact not_take_cons _ _ _ _
      (by
        intro he
        rw [he] at hc0
        exact absurd hc0 (by decide)) 0)]
  rw [hspan.1, hspan.2]
  rw [if_neg (by rw [hdata]; simp)]
  rw [show skipSpaces (' ' :: '=' :: ' ' :: printScalar v) =
    '=' :: ' ' :: printScalar v from rfl]
  rw [if_pos (show List.take 1 ('=' :: ' ' :: printScalar v) = ['='] from rfl)]
  rw [show ((('=' : Char) :: ' ' :: printScalar v).drop 1) = ' ' :: printScalar v
    from rfl]
  rw [show skipSpaces (' ' :: printScalar v) = skipSpaces (printScalar v) from rfl]
  rw [skipSpaces_printScalar, parseScalar_print v hv]
  rfl

lemma splitLines_cons (c : Char) (rest : List Char) :
    splitLines (c :: rest) = if c = '\n' then [] :: splitLines rest
      else match splitLines rest with
        | [] => [[c]]
        | l :: ls => (c :: l) :: ls := rfl

lemma splitLines_append_nl (l : List Char) (h : '\n' ∉ l) (rest : List Char) :
    splitLines (l ++ '\n' :: rest) = l :: splitLines rest := by
  induction l with
  | nil =>
      show splitLines ('\n' :: rest) = [] :: splitLines rest
      rw [splitLines_cons, if_pos rfl]
  | cons c t ih =>
      have hc : c ≠ '\n' := by
        intro he
        exact h (he ▸ List.mem_cons_self _ _)
      have ht : '\n' ∉ t := fun hm => h (List.mem_cons_of_mem _ hm)
      show splitLines (c :: (t ++ '\n' :: rest)) = (c :: t) :: splitLines rest
      rw [splitLines_cons, if_neg hc, ih ht]

lemma splitLines_no_nl (l : List Char) (h : '\n' ∉ l) : splitLines l = [l] := by
  induction l with
  | nil => rfl
  | cons c t ih =>
      have hc : c ≠ '\n' := fun he => h (he ▸ List.mem_cons_self _ _)
      have ht : '\n' ∉ t := fun hm => h (List.mem_cons_of_mem _ hm)
      show splitLines (c :: t) = [c :: t]
      rw [splitLines_cons, if_neg hc, ih ht]

lemma splitLines_joinLines : ∀ (L : List (List Char)), L ≠ [] →
    (∀ l ∈ L, '\n' ∉ l) → splitLines (joinLines L ++ ['\n']) = L ++ [[]] := by
  intro L
  induction L with
  | nil => intro h; exact absurd rfl h
  | cons l ls ih =>
      intro _ hno
      cases ls with
      | nil =>
          show splitLines (joinLines [l] ++ ['\n']) = [l, []]
          rw [show joinLines [l] = l from rfl]
          rw [show (['\n'] : List Char) = '\n' :: [] from rfl]
          rw [splitLines_append_nl l (hno l (List.mem_cons_self _ _)) []]
          rfl
      | cons l2 ls2 =>
          rw [show joinLines (l :: l2 :: ls2) = l ++ '\n' :: joinLines (l2 :: ls2)
            from rfl]
          rw [List.append_assoc, List.cons_append]
          rw [splitLines_append_nl l (hno l (List.mem_cons_self _ _))]
          rw [ih (by simp) fun x hx => hno x (List.mem_cons_of_mem _ hx)]
          rfl

lemma noNL_printNat (n : Nat) : '\n' ∉ printNat n := by
  intro hm
  have := printNat_all_digits n _ hm
  exact absurd this (by decide)

lemma noNL_printFrac (r e : Nat) : '\n' ∉ printFrac r e := by
  intro hm
  have := printFrac_all_digits r e _ hm
  exact absurd this (by decide)

lemma noNL_escapeChar (c : Char) : '\n' ∉ escapeChar c := by
  unfold escapeChar
  by_cases h1 : c = '"'
  · rw [if_pos h1]; decide
  · rw [if_neg h1]
    by_cases h2 : c = '\\'
    · rw [if_pos h2]; decide
    · rw [if_neg h2]
      by_cases h3 : c = Char.ofNat 8
      · rw [if_pos h3]; decide
      · rw [if_neg h3]
        by_cases h4 : c = Char.ofNat 9
        · rw [if_pos h4]; decide
        · rw [if_neg h4]
          by_cases h5 : c = Char.ofNat 10
          · rw [if_pos h5]; decide
          · rw [if_neg h5]
            by_cases h6 : c = Char.ofNat 12
            · rw [if_pos h6]; decide
            · rw [if_neg h6]
              by_cases h7 : c = Char.ofNat 13
              · rw [if_pos h7]; decide
              · rw [if_neg h7]
                by_cases h8 : c.toNat < 32
                · rw [if_pos h8]
                  intro hm
                  have hlt : ∀ y < 16, hexDigitChar y ≠ '\n' := by decide
                  simp only [List.mem_cons, List.not_mem_nil, or_false] at hm
                  rcases hm with he | he | he | he | he | he
                  · exact absurd he.symm (by decide)
                  · exact absurd he.symm (by decide)
                  · exact hlt _ (by omega) he.symm
                  · exact hlt _ (Nat.mod_lt _ (by norm_num)) he.symm
                  · exact hlt _ (Nat.mod_lt _ (by norm_num)) he.symm
                  · exact hlt _ (Nat.mod_lt _ (by norm_num)) he.symm
                · rw [if_neg h8]
                  intro hm
                  simp only [List.mem_cons, List.not_mem_nil, or_false] at hm
                  rw [← hm] at h8
                  exact h8 (by decide)

lemma noNL_escapeList (cs : List Char) : '\n' ∉ escapeList cs := by
  intro hm
  unfold escapeList at hm
  rw [List.mem_flatten] at hm
  obtain ⟨l, hl, hml⟩ := hm
  rw [List.mem_map] at hl
  obtain ⟨c, _, rfl⟩ := hl
  exact noNL_escapeChar c hml

lemma noNL_printScalar (v : Scalar) : '\n' ∉ printScalar v := by
  cases v with
  | bool b => cases b <;> decide
  | str s =>
      show '\n' ∉ '"' :: (escapeList s.data ++ ['"'])
      intro hm
      simp only [List.mem_cons, List.mem_append, List.mem_singleton] at hm
      rcases hm with he | he | he
      · exact absurd he (by decide)
      · exact noNL_escapeList _ he
      · exact absurd he (by decide)
  | int n =>
      show '\n' ∉ printInt n
      unfold printInt
      by_cases hn : n < 0
      · rw [if_pos hn]
        intro hm
        rcases List.mem_cons.mp hm with he | he
        · exact absurd he (by decide)
        · exact noNL_printNat _ he
      · rw [if_neg hn]
        exact noNL_printNat _
  | float f =>
      cases f with
      | nan => decide
      | num m e =>
          rw [show printScalar (.float (.num m e)) = (if m < 0 then
              '-' :: (if e = 0 then printNat m.natAbs ++ ['.', '0']
                else printNat (m.natAbs / 10 ^ e) ++ '.' ::
                  printFrac (m.natAbs % 10 ^ e) e)
            else (if e = 0 then printNat m.natAbs ++ ['.', '0']
              else printNat (m.natAbs / 10 ^ e) ++ '.' ::
                printFrac (m.natAbs % 10 ^ e) e)) from rfl]
          have hcore : '\n' ∉ (if e = 0 then printNat m.natAbs ++ ['.', '0']
              else printNat (m.natAbs / 10 ^ e) ++ '.' ::
                printFrac (m.natAbs % 10 ^ e) e : List Char) := by
            by_cases he : e = 0
            · rw [if_pos he]
              intro hm
              rcases List.mem_append.mp hm with hx | hx
              · exact noNL_printNat _ hx
              · exact absurd hx (by decide)
            · rw [if_neg he]
              intro hm
              rcases List.mem_append.mp hm with hx | hx
              · exact noNL_printNat _ hx
              · rcases List.mem_cons.mp hx with he2 | he2
                · exact absurd he2 (by decide)
                · exact noNL_printFrac _ _ he2
          by_cases hm : m < 0
          · rw [if_pos hm]
            intro hx
            rcases List.mem_cons.mp hx with he2 | he2
            · exact absurd he2 (by decide)
            · exact hcore he2
          · rw [if_neg hm]
            exact hcore

lemma noNL_printKVLine (k : String) (v : Scalar) (hk : '\n' ∉ k.data) :
    '\n' ∉ printKVLine k v := by
  intro hm
  unfold printKVLine at hm
  rcases List.mem_append.mp hm with hx | hx
  · exact hk hx
  · rcases List.mem_cons.mp hx with he | hx
    · exact absurd he (by decide)
    · rcases List.mem_cons.mp hx with he | hx
      · exact absurd he (by decide)
      · rcases List.mem_cons.mp hx with he | hx
        · exact absurd he (by decide)
        · exact noNL_printScalar v hx

lemma lookup_none_of_not_mem_keys (l : KVs) (k : String)
    (h : k ∉ l.map fun p => p.1) : l.lookup k = none := by
  induction l with
  | nil => rfl
  | cons p t ih =>
      obtain ⟨k1, v1⟩ := p
      simp only [List.map_cons, List.mem_cons, not_or] at h
      simp [List.lookup, beq_eq_false_iff_ne.mpr h.1, ih h.2]

lemma lookup_append_none (l1 l2 : KVs) (k : String) (h1 : l1.lookup k = none)
    (h2 : l2.lookup k = none) : (l1 ++ l2).lookup k = none := by
  induction l1 with
  | nil => exact h2
  | cons p t ih =>
      obtain ⟨k1, v1⟩ := p
      rw [List.cons_append]
      cases hbe : (k == k1) with
      | true => simp [List.lookup, hbe] at h1
      | false =>
          simp only [List.lookup, hbe] at h1 ⊢
          exact ih h1

lemma pushLine_blank (st : PState) : pushLine st .blank = .ok st := rfl

lemma pushLine_kv_root (root : KVs) (tabs : List (String × KVs)) (k : String)
    (v : Scalar) (hf : root.lookup k = none) :
    pushLine ⟨root, tabs, none⟩ (.kv k v) = .ok ⟨root ++ [(k, v)], tabs, none⟩ := by
  simp [pushLine, hf]

lemma pushLine_kv_cur (root : KVs) (tabs : List (String × KVs)) (m : String)
    (kvs : KVs) (k : String) (v : Scalar) (hf : kvs.lookup k = none) :
    pushLine ⟨root, tabs, some (m, kvs)⟩ (.kv k v) =
      .ok ⟨root, tabs, some (m, kvs ++ [(k, v)])⟩ := by
  simp [pushLine, hf]

lemma pushLine_header_first (root : KVs) (tabs : List (String × KVs)) (n : String)
    (h1 : root.lookup n = none)
    (h2 : ∀ x : KVs, (n, x) ∉ tabs) :
    pushLine ⟨root, tabs, none⟩ (.header n) = .ok ⟨root, tabs, some (n, [])⟩ := by
  simp [pushLine, h1, PState.names, h2]

lemma pushLine_header_next (root : KVs) (tabs : List (String × KVs)) (m : String)
    (kvs : KVs) (n : String) (h1 : root.lookup n = none)
    (h2 : ∀ x : KVs, (n, x) ∉ tabs) (h3 : n ≠ m) :
    pushLine ⟨root, tabs, some (m, kvs)⟩ (.header n) =
      .ok ⟨root, tabs ++ [(m, kvs)], some (n, [])⟩ := by
  simp [pushLine, h1, PState.names, h2, h3]

lemma pushAll_cons_ok (st st2 : PState) (k : LineKind) (ks : List LineKind)
    (h : pushLine st k = .ok st2) :
    pushAll st (k :: ks) = pushAll st2 ks := by
  simp [pushAll, h, Bind.bind, Except.bind]

lemma pushAll_append (ks1 : List LineKind) : ∀ (st : PState) (ks2 : List LineKind),
    pushAll st (ks1 ++ ks2) =
      match pushAll st ks1 with
      | .ok st2 => pushAll st2 ks2
      | .error e => .error e := by
  induction ks1 with
  | nil => intro st ks2; rfl
  | cons k t ih =>
      intro st ks2
      show pushAll st (k :: (t ++ ks2)) = _
      cases hp : pushLine st k with
      | error e => simp [pushAll, hp, Bind.bind, Except.bind]
      | ok st2 =>
          rw [pushAll_cons_ok st st2 k (t ++ ks2) hp, pushAll_cons_ok st st2 k t hp]
          exact ih st2 ks2

lemma pushAll_root_kvs : ∀ (kvs : KVs) (root : KVs) (tabs : List (String × KVs)),
    (∀ p ∈ kvs, root.lookup p.1 = none) →
    ((kvs.map fun p => p.1).Nodup) →
    pushAll ⟨root, tabs, none⟩ (kvs.map fun p => LineKind.kv p.1 p.2) =
      .ok ⟨root ++ kvs, tabs, none⟩ := by
  intro kvs
  induction kvs with
  | nil =>
      intro root tabs _ _
      simp [pushAll]
  | cons p t ih =>
      intro root tabs hf hnd
      obtain ⟨k, v⟩ := p
      show pushAll _ (LineKind.kv k v :: t.map fun p => LineKind.kv p.1 p.2) = _
      rw [pushAll_cons_ok _ _ _ _
        (pushLine_kv_root root tabs k v (hf (k, v) (List.mem_cons_self _ _)))]
      simp only [List.map_cons, List.nodup_cons] at hnd
      rw [ih (root ++ [(k, v)]) tabs ?hf2 hnd.2]
      · rw [List.append_assoc]
        rfl
      case hf2 =>
        intro q hq
        refine lookup_append_none _ _ _ (hf q (List.mem_cons_of_mem _ hq)) ?_
        have hne : q.1 ≠ k := by
          intro he
          exact hnd.1 (he ▸ List.mem_map_of_mem (fun p => p.1) hq)
        simp [List.lookup, beq_eq_false_iff_ne.mpr hne]

lemma classifyAll_eq_ok_cons (l : List Char) (ls : List (List Char)) (k : LineKind)
    (ks : List LineKind) (h1 : classifyLine l = .ok k)
    (h2 : classifyAll ls = .ok ks) : classifyAll (l :: ls) = .ok (k :: ks) := by
  simp [classifyAll, h1, h2, Bind.bind, Except.bind, Pure.pure, Except.pure]

lemma classifyAll_kvs (kvs : KVs) (rest : List (List Char))
    (h : ∀ p ∈ kvs, p.1.data ≠ [] ∧ ∀ c ∈ p.1.data, isBareKeyChar c = true)
    (hv : ∀ p ∈ kvs, scalarInRange p.2 = true)
    (ks : List LineKind) (hrest : classifyAll rest = .ok ks) :
    classifyAll (printKVsLines kvs ++ rest) =
      .ok ((kvs.map fun p => LineKind.kv p.1 (canonScalar p.2)) ++ ks) := by
  induction kvs with
  | nil => simpa [printKVsLines] using hrest
  | cons p t ih =>
      have hp := h p (List.mem_cons_self _ _)
      have hpv := hv p (List.mem_cons_self _ _)
      have ht : ∀ q ∈ t, q.1.data ≠ [] ∧ ∀ c ∈ q.1.data, isBareKeyChar c = true :=
        fun q hq => h q (List.mem_cons_of_mem _ hq)
      have htv : ∀ q ∈ t, scalarInRange q.2 = true :=
        fun q hq => hv q (List.mem_cons_of_mem _ hq)
      show classifyAll (printKVLine p.1 p.2 :: (printKVsLines t ++ rest)) = _
      exact classifyAll_eq_ok_cons _ _ _ _ (classify_kv p.1 p.2 hp.1 hp.2 hpv)
        (ih ht htv)

lemma map_kv_canon (R : KVs) :
    (R.map fun p => LineKind.kv p.1 (canonScalar p.2)) =
      ((R.map fun p => (p.1, canonScalar p.2)).map fun p => LineKind.kv p.1 p.2) := by
  rw [List.map_map]
  rfl

lemma pushAll_append_ok (ks1 : List LineKind) (st st2 : PState)
    (ks2 : List LineKind) (h : pushAll st ks1 = .ok st2) :
    pushAll st (ks1 ++ ks2) = pushAll st2 ks2 := by
  rw [pushAll_append, h]

lemma croot_keys (w : Workload) :
    ((((Workload.toToml w).root.map fun p => (p.1, canonScalar p.2))).map fun p => p.1) = (["workload", "recordcount", "operationcount", "threadcount", "insertcount", "insertstart", "fieldcount", "fieldlength", "readallfields", "writeallfields", "fieldlengthdistribution", "readproportion", "updateproportion", "insertproportion", "readmodifywriteproportion", "scanproportion", "maxscanlength", "scanlengthdistribution", "insertorder", "requestdistribution", "readcount", "hotspotopnfraction", "maxexecutiontime", "table", "columnfamily", "measurementtype"] : List String) := rfl

lemma docLines_toToml (w : Workload) :
    docLines (Workload.toToml w) =
      [printKVLine "workload" (Scalar.str w.workload),
       printKVLine "recordcount" (Scalar.int (w.record_count : Int)),
       printKVLine "operationcount" (Scalar.int (w.operation_count : Int)),
       printKVLine "threadcount" (Scalar.int (w.thread_count : Int)),
       printKVLine "insertcount" (Scalar.int (w.insert_count : Int)),
       printKVLine "insertstart" (Scalar.int (w.insert_start : Int)),
       printKVLine "fieldcount" (Scalar.int (w.field_count : Int)),
       printKVLine "fieldlength" (Scalar.int (w.field_length : Int)),
       printKVLine "readallfields" (Scalar.bool w.read_all_fields),
       printKVLine "writeallfields" (Scalar.bool w.write_all_fields),
       printKVLine "fieldlengthdistribution" (Scalar.str w.field_length_distribution.toStr),
       printKVLine "readproportion" (Scalar.float w.read_proportion),
       printKVLine "updateproportion" (Scalar.float w.update_proportion),
       printKVLine "insertproportion" (Scalar.float w.insert_proportion),
       printKVLine "readmodifywriteproportion" (Scalar.float w.read_modify_write_proportion),
       printKVLine "scanproportion" (Scalar.float w.scan_proportion),
       printKVLine "maxscanlength" (Scalar.int (w.max_scan_length : Int)),
       printKVLine "scanlengthdistribution" (Scalar.str w.scan_length_distribution.toStr),
       printKVLine "insertorder" (Scalar.str w.insert_order.toStr),
       printKVLine "requestdistribution" (Scalar.str w.request_distribution.toStr),
       printKVLine "readcount" (Scalar.float w.hotspot_data_fraction),
       printKVLine "hotspotopnfraction" (Scalar.float w.hotspot_operation_fraction),
       printKVLine "maxexecutiontime" (Scalar.int (secsOf w.max_execution_time : Int)),
       printKVLine "table" (Scalar.str w.table),
       printKVLine "columnfamily" (Scalar.str w.column_family),
       printKVLine "measurementtype" (Scalar.str w.measurement_type.toStr),
       ([] : List Char),
       ('[' :: ("histogram".data ++ [']'])),
       printKVLine "buckets" (Scalar.int (millisOf w.histogram.buckets : Int)),
       ([] : List Char),
       ('[' :: ("timeseries".data ++ [']'])),
       printKVLine "granularity" (Scalar.int (millisOf w.timeseries.granularity : Int))] := rfl

lemma noNL_docLines_toToml (w : Workload) :
    ∀ l ∈ docLines (Workload.toToml w), '\n' ∉ l := by
  rw [docLines_toToml]
  intro l hl
  simp only [List.mem_cons, List.not_mem_nil, or_false] at hl
  rcases hl with rfl | rfl | rfl | rfl | rfl | rfl | rfl | rfl | rfl | rfl | rfl | rfl | rfl | rfl | rfl | rfl | rfl | rfl | rfl | rfl | rfl | rfl | rfl | rfl | rfl | rfl | rfl | rfl | rfl | rfl | rfl | rfl <;>
    first
    | exact noNL_printKVLine _ _ (by decide)
    | decide

lemma toToml_root_goodkeys (w : Workload) :
    ∀ p ∈ (Workload.toToml w).root,
      p.1.data ≠ [] ∧ ∀ c ∈ p.1.data, isBareKeyChar c = true := by
  intro p hp
  have hk : p.1 ∈ (["workload", "recordcount", "operationcount", "threadcount", "insertcount", "insertstart", "fieldcount", "fieldlength", "readallfields", "writeallfields", "fieldlengthdistribution", "readproportion", "updateproportion", "insertproportion", "readmodifywriteproportion", "scanproportion", "maxscanlength", "scanlengthdistribution", "insertorder", "requestdistribution", "readcount", "hotspotopnfraction", "maxexecutiontime", "table", "columnfamily", "measurementtype"] : List String) := by
    have h2 := List.mem_map_of_mem (fun q => q.1) hp
    rw [show ((Workload.toToml w).root.map fun q => q.1) =
      (["workload", "recordcount", "operationcount", "threadcount", "insertcount", "insertstart", "fieldcount", "fieldlength", "readallfields", "writeallfields", "fieldlengthdistribution", "readproportion", "updateproportion", "insertproportion", "readmodifywriteproportion", "scanproportion", "maxscanlength", "scanlengthdistribution", "insertorder", "requestdistribution", "readcount", "hotspotopnfraction", "maxexecutiontime", "table", "columnfamily", "measurementtype"] : List String) from rfl] at h2
    exact h2
  simp only [List.mem_cons, List.not_mem_nil, or_false] at hk
  rcases hk with h | h | h | h | h | h | h | h | h | h | h | h | h | h | h | h | h | h | h | h | h | h | h | h | h | h <;> rw [h] <;> exact ⟨by decide, by decide⟩

lemma inI64_ofNat (n : Nat) (h : n ≤ 9223372036854775807) :
    inI64 (n : Int) = true := by
  simp only [inI64, Bool.and_eq_true, decide_eq_true_eq]
  constructor
  · exact le_trans (by norm_num) (Int.natCast_nonneg n)
  · exact_mod_cast h

lemma toToml_root_inRange (w : Workload) (hr : InRangeWorkload w) :
    ∀ p ∈ (Workload.toToml w).root, scalarInRange p.2 = true := by
  obtain ⟨r1, r2, r3, r4, r5, r6, r7, r8, r9, -, -⟩ := hr
  intro p hp
  have hv2 := List.mem_map_of_mem (fun q => q.2) hp
  rw [show ((Workload.toToml w).root.map fun q => q.2) =
      ([Scalar.str w.workload,
       Scalar.int (w.record_count : Int),
       Scalar.int (w.operation_count : Int),
       Scalar.int (w.thread_count : Int),
       Scalar.int (w.insert_count : Int),
       Scalar.int (w.insert_start : Int),
       Scalar.int (w.field_count : Int),
       Scalar.int (w.field_length : Int),
       Scalar.bool w.read_all_fields,
       Scalar.bool w.write_all_fields,
       Scalar.str w.field_length_distribution.toStr,
       Scalar.float w.read_proportion,
       Scalar.float w.update_proportion,
       Scalar.float w.insert_proportion,
       Scalar.float w.read_modify_write_proportion,
       Scalar.float w.scan_proportion,
       Scalar.int (w.max_scan_length : Int),
       Scalar.str w.scan_length_distribution.toStr,
       Scalar.str w.insert_order.toStr,
       Scalar.str w.request_distribution.toStr,
       Scalar.float w.hotspot_data_fraction,
       Scalar.float w.hotspot_operation_fraction,
       Scalar.int (secsOf w.max_execution_time : Int),
       Scalar.str w.table,
       Scalar.str w.column_family,
       Scalar.str w.measurement_type.toStr] : List Scalar) from rfl] at hv2
  simp only [List.mem_cons, List.not_mem_nil, or_false] at hv2
  rcases hv2 with h | h | h | h | h | h | h | h | h | h | h | h | h | h | h | h | h | h | h | h | h | h | h | h | h | h <;> rw [h] <;>
    first
    | rfl
    | exact inI64_ofNat _ r1 | exact inI64_ofNat _ r2 | exact inI64_ofNat _ r3 | exact inI64_ofNat _ r4 | exact inI64_ofNat _ r5 | exact inI64_ofNat _ r6 | exact inI64_ofNat _ r7 | exact inI64_ofNat _ r8 | exact inI64_ofNat _ r9

lemma classifyAll_tail_toToml (w : Workload)
    (hb : millisOf w.histogram.buckets ≤ 9223372036854775807)
    (hg : millisOf w.timeseries.granularity ≤ 9223372036854775807) :
    classifyAll
      [([] : List Char),
       ('[' :: ("histogram".data ++ [']'])),
       printKVLine "buckets" (Scalar.int (millisOf w.histogram.buckets : Int)),
       ([] : List Char),
       ('[' :: ("timeseries".data ++ [']'])),
       printKVLine "granularity" (Scalar.int (millisOf w.timeseries.granularity : Int)),
       ([] : List Char)] =
      .ok [LineKind.blank, LineKind.header "histogram", LineKind.kv "buckets" (canonScalar (Scalar.int (millisOf w.histogram.buckets : Int))), LineKind.blank, LineKind.header "timeseries", LineKind.kv "granularity" (canonScalar (Scalar.int (millisOf w.timeseries.granularity : Int))), LineKind.blank] :=
  classifyAll_eq_ok_cons _ _ _ _ (by decide)
    (classifyAll_eq_ok_cons _ _ _ _ (by decide)
      (classifyAll_eq_ok_cons _ _ _ _
        (classify_kv _ _ (by decide) (by decide) (inI64_ofNat _ hb))
        (classifyAll_eq_ok_cons _ _ _ _ (by decide)
          (classifyAll_eq_ok_cons _ _ _ _ (by decide)
            (classifyAll_eq_ok_cons _ _ _ _
              (classify_kv _ _ (by decide) (by decide) (inI64_ofNat _ hg))
              (classifyAll_eq_ok_cons _ _ _ _ (by decide) rfl))))))

lemma classifyAll_doc_toToml (w : Workload) (hr : InRangeWorkload w) :
    classifyAll (docLines (Workload.toToml w) ++ [[]]) =
      .ok (((Workload.toToml w).root.map fun p => LineKind.kv p.1 (canonScalar p.2)) ++
      [LineKind.blank, LineKind.header "histogram", LineKind.kv "buckets" (canonScalar (Scalar.int (millisOf w.histogram.buckets : Int))), LineKind.blank, LineKind.header "timeseries", LineKind.kv "granularity" (canonScalar (Scalar.int (millisOf w.timeseries.granularity : Int))), LineKind.blank]) := by
  rw [show docLines (Workload.toToml w) ++ [[]] =
      printKVsLines (Workload.toToml w).root ++
        [([] : List Char),
       ('[' :: ("histogram".data ++ [']'])),
       printKVLine "buckets" (Scalar.int (millisOf w.histogram.buckets : Int)),
       ([] : List Char),
       ('[' :: ("timeseries".data ++ [']'])),
       printKVLine "granularity" (Scalar.int (millisOf w.timeseries.granularity : Int)),
       ([] : List Char)] from rfl]
  exact classifyAll_kvs _ _ (toToml_root_goodkeys w) (toToml_root_inRange w hr) _
    (classifyAll_tail_toToml w hr.2.2.2.2.2.2.2.2.2.1 hr.2.2.2.2.2.2.2.2.2.2)

lemma pushAll_doc_toToml (w : Workload) :
    pushAll ⟨[], [], none⟩ (((Workload.toToml w).root.map fun p => LineKind.kv p.1 (canonScalar p.2)) ++
      [LineKind.blank, LineKind.header "histogram", LineKind.kv "buckets" (canonScalar (Scalar.int (millisOf w.histogram.buckets : Int))), LineKind.blank, LineKind.header "timeseries", LineKind.kv "granularity" (canonScalar (Scalar.int (millisOf w.timeseries.granularity : Int))), LineKind.blank]) =
      .ok ⟨((Workload.toToml w).root.map fun p => (p.1, canonScalar p.2)),
      [("histogram", [("buckets", canonScalar (Scalar.int (millisOf w.histogram.buckets : Int)))])],
      some ("timeseries", [("granularity", canonScalar (Scalar.int (millisOf w.timeseries.granularity : Int)))])⟩ := by
  have h1 : pushAll (⟨[], [], none⟩ : PState)
      ((((Workload.toToml w).root.map fun p => (p.1, canonScalar p.2))).map fun p => LineKind.kv p.1 p.2) =
      .ok ⟨[] ++ ((Workload.toToml w).root.map fun p => (p.1, canonScalar p.2)), [], none⟩ :=
    pushAll_root_kvs _ [] [] (fun p _ => rfl) (by rw [croot_keys]; decide)
  rw [map_kv_canon, pushAll_append_ok _ _ _ _ h1]
  rw [pushAll_cons_ok _ _ _ _ (pushLine_blank _)]
  rw [pushAll_cons_ok _ _ _ _ (pushLine_header_first
    ([] ++ ((Workload.toToml w).root.map fun p => (p.1, canonScalar p.2))) [] "histogram"
    (lookup_none_of_not_mem_keys _ _ (by rw [List.nil_append, croot_keys]; decide))
    (by simp))]
  rw [pushAll_cons_ok _ _ _ _ (pushLine_kv_cur
    ([] ++ ((Workload.toToml w).root.map fun p => (p.1, canonScalar p.2))) [] "histogram" [] "buckets" (canonScalar (Scalar.int (millisOf w.histogram.buckets : Int))) rfl)]
  rw [pushAll_cons_ok _ _ _ _ (pushLine_blank _)]
  rw [pushAll_cons_ok _ _ _ _ (pushLine_header_next
    ([] ++ ((Workload.toToml w).root.map fun p => (p.1, canonScalar p.2))) [] "histogram" ([] ++ [("buckets", canonScalar (Scalar.int (millisOf w.histogram.buckets : Int)))])
    "timeseries" (lookup_none_of_not_mem_keys _ _
      (by rw [List.nil_append, croot_keys]; decide))
    (by simp) (by decide))]
  rw [pushAll_cons_ok _ _ _ _ (pushLine_kv_cur
    ([] ++ ((Workload.toToml w).root.map fun p => (p.1, canonScalar p.2))) ([] ++ [("histogram", [] ++ [("buckets", canonScalar (Scalar.int (millisOf w.histogram.buckets : Int)))])])
    "timeseries" [] "granularity" (canonScalar (Scalar.int (millisOf w.timeseries.granularity : Int))) rfl)]
  rw [pushAll_cons_ok _ _ _ _ (pushLine_blank _)]
  rfl

lemma parse_print_toToml (w : Workload) (hr : InRangeWorkload w) :
    tomlParse ⟨printDocChars (Workload.toToml w)⟩ =
      .ok (canonDoc (Workload.toToml w)) := by
  show parseDocChars (joinLines (docLines (Workload.toToml w)) ++ ['\n']) = _
  unfold parseDocChars
  rw [splitLines_joinLines _
    (by rw [docLines_toToml]; exact List.cons_ne_nil _ _) (noNL_docLines_toToml w)]
  rw [classifyAll_doc_toToml w hr]
  simp only [Bind.bind, Except.bind]
  rw [pushAll_doc_toToml]
  rfl

lemma getStr_at (root : KVs) (k : String) (dfl s : String)
    (h : root.lookup k = some (.str s)) : getStr root k dfl = .ok s := by
  unfold getStr
  rw [h]

lemma getNat_at (root : KVs) (k : String) (dfl : Nat) (n : Nat)
    (h : root.lookup k = some (.int (n : Int))) : getNat root k dfl = .ok n := by
  unfold getNat
  rw [h]
  have h0 : (0 : Int) ≤ (n : Int) := Int.natCast_nonneg n
  simp [h0]

lemma getBool_at (root : KVs) (k : String) (dfl : Bool) (b : Bool)
    (h : root.lookup k = some (.bool b)) : getBool root k dfl = .ok b := by
  unfold getBool
  rw [h]

lemma getF64_at (root : KVs) (k : String) (dfl : F64) (f : F64)
    (h : root.lookup k = some (.float f)) : getF64 root k dfl = .ok f := by
  unfold getF64
  rw [h]

lemma getEnum_at {α : Type} (fromStr : String → Option α) (root : KVs)
    (k : String) (dfl : α) (v : α) (s : String)
    (h : root.lookup k = some (.str s)) (hs : fromStr s = some v) :
    getEnum fromStr root k dfl = .ok v := by
  unfold getEnum
  rw [h]
  show (match fromStr s with
    | some v => Except.ok v
    | none => Except.error (DeErr.unknownVariant k s)) = Except.ok v
  rw [hs]

lemma getDurationSecs_at (root : KVs) (k : String) (dfl : Duration) (n : Nat)
    (h : root.lookup k = some (.int (n : Int))) :
    getDurationSecs root k dfl = .ok (Duration.from_secs n) := by
  unfold getDurationSecs
  rw [h]
  have h0 : (0 : Int) ≤ (n : Int) := Int.natCast_nonneg n
  simp [h0]

lemma getTable_at {α : Type} (de : KVs → Except DeErr α) (d : TomlDoc)
    (key : String) (dfl : α) (kvs : KVs) (h : d.tables.lookup key = some kvs) :
    getTable de d key dfl = de kvs := by
  unfold getTable
  rw [h]

lemma deHistogram_at (n : Nat) :
    deHistogram [("buckets", Scalar.int (n : Int))] =
      .ok ⟨Duration.from_millis n⟩ := by
  unfold deHistogram
  rw [show (List.lookup "buckets" [("buckets", Scalar.int (n : Int))]) =
    some (Scalar.int (n : Int)) from rfl]
  have h0 : (0 : Int) ≤ (n : Int) := Int.natCast_nonneg n
  simp [h0]

lemma deTimeseries_at (n : Nat) :
    deTimeseries [("granularity", Scalar.int (n : Int))] =
      .ok ⟨Duration.from_millis n⟩ := by
  unfold deTimeseries
  rw [show (List.lookup "granularity" [("granularity", Scalar.int (n : Int))]) =
    some (Scalar.int (n : Int)) from rfl]
  have h0 : (0 : Int) ≤ (n : Int) := Int.natCast_nonneg n
  simp [h0]

lemma dist_fromStr_toStr (d : Distribution) :
    Distribution.fromStr d.toStr = some d := by
  cases d <;> rfl

lemma io_fromStr_toStr (d : InsertOrder) : InsertOrder.fromStr d.toStr = some d := by
  cases d <;> rfl

lemma mt_fromStr_toStr (d : MeasurementType) :
    MeasurementType.fromStr d.toStr = some d := by
  cases d <;> rfl

lemma deW_canon_toToml (w : Workload) :
    deWorkload (canonDoc (Workload.toToml w)) = .ok (canonW w) := by
  have e1 : (canonDoc (Workload.toToml w)).root.lookup "workload" =
      some (Scalar.str w.workload) := rfl
  have e2 : (canonDoc (Workload.toToml w)).root.lookup "recordcount" =
      some (Scalar.int (w.record_count : Int)) := rfl
  have e3 : (canonDoc (Workload.toToml w)).root.lookup "operationcount" =
      some (Scalar.int (w.operation_count : Int)) := rfl
  have e4 : (canonDoc (Workload.toToml w)).root.lookup "threadcount" =
      some (Scalar.int (w.thread_count : Int)) := rfl
  have e5 : (canonDoc (Workload.toToml w)).root.lookup "insertcount" =
      some (Scalar.int (w.insert_count : Int)) := rfl
  have e6 : (canonDoc (Workload.toToml w)).root.lookup "insertstart" =
      some (Scalar.int (w.insert_start : Int)) := rfl
  have e7 : (canonDoc (Workload.toToml w)).root.lookup "fieldcount" =
      some (Scalar.int (w.field_count : Int)) := rfl
  have e8 : (canonDoc (Workload.toToml w)).root.lookup "fieldlength" =
      some (Scalar.int (w.field_length : Int)) := rfl
  have e9 : (canonDoc (Workload.toToml w)).root.lookup "readallfields" =
      some (Scalar.bool w.read_all_fields) := rfl
  have e10 : (canonDoc (Workload.toToml w)).root.lookup "writeallfields" =
      some (Scalar.bool w.write_all_fields) := rfl
  have e11 : (canonDoc (Workload.toToml w)).root.lookup "fieldlengthdistribution" =
      some (Scalar.str w.field_length_distribution.toStr) := rfl
  have e12 : (canonDoc (Workload.toToml w)).root.lookup "readproportion" =
      some (Scalar.float (canonF64 (w.read_proportion))) := by
    rw [show (canonDoc (Workload.toToml w)).root.lookup "readproportion" =
      some (canonScalar (Scalar.float (w.read_proportion))) from rfl, canonScalar_float]
  have e13 : (canonDoc (Workload.toToml w)).root.lookup "updateproportion" =
      some (Scalar.float (canonF64 (w.update_proportion))) := by
    rw [show (canonDoc (Workload.toToml w)).root.lookup "updateproportion" =
      some (canonScalar (Scalar.float (w.update_proportion))) from rfl, canonScalar_float]
  have e14 : (canonDoc (Workload.toToml w)).root.lookup "insertproportion" =
      some (Scalar.float (canonF64 (w.insert_proportion))) := by
    rw [show (canonDoc (Workload.toToml w)).root.lookup "insertproportion" =
      some (canonScalar (Scalar.float (w.insert_proportion))) from rfl, canonScalar_float]
  have e15 : (canonDoc (Workload.toToml w)).root.lookup "readmodifywriteproportion" =
      some (Scalar.float (canonF64 (w.read_modify_write_proportion))) := by
    rw [show (canonDoc (Workload.toToml w)).root.lookup "readmodifywriteproportion" =
      some (canonScalar (Scalar.float (w.read_modify_write_proportion))) from rfl, canonScalar_float]
  have e16 : (canonDoc (Workload.toToml w)).root.lookup "scanproportion" =
      some (Scalar.float (canonF64 (w.scan_proportion))) := by
    rw [show (canonDoc (Workload.toToml w)).root.lookup "scanproportion" =
      some (canonScalar (Scalar.float (w.scan_proportion))) from rfl, canonScalar_float]
  have e17 : (canonDoc (Workload.toToml w)).root.lookup "maxscanlength" =
      some (Scalar.int (w.max_scan_length : Int)) := rfl
  have e18 : (canonDoc (Workload.toToml w)).root.lookup "scanlengthdistribution" =
      some (Scalar.str w.scan_length_distribution.toStr) := rfl
  have e19 : (canonDoc (Workload.toToml w)).root.lookup "insertorder" =
      some (Scalar.str w.insert_order.toStr) := rfl
  have e20 : (canonDoc (Workload.toToml w)).root.lookup "requestdistribution" =
      some (Scalar.str w.request_distribution.toStr) := rfl
  have e21 : (canonDoc (Workload.toToml w)).root.lookup "readcount" =
      some (Scalar.float (canonF64 (w.hotspot_data_fraction))) := by
    rw [show (canonDoc (Workload.toToml w)).root.lookup "readcount" =
      some (canonScalar (Scalar.float (w.hotspot_data_fraction))) from rfl, canonScalar_float]
  have e22 : (canonDoc (Workload.toToml w)).root.lookup "hotspotopnfraction" =
      some (Scalar.float (canonF64 (w.hotspot_operation_fraction))) := by
    rw [show (canonDoc (Workload.toToml w)).root.lookup "hotspotopnfraction" =
      some (canonScalar (Scalar.float (w.hotspot_operation_fraction))) from rfl, canonScalar_float]
  have e23 : (canonDoc (Workload.toToml w)).root.lookup "maxexecutiontime" =
      some (Scalar.int (secsOf w.max_execution_time : Int)) := rfl
  have e24 : (canonDoc (Workload.toToml w)).root.lookup "table" =
      some (Scalar.str w.table) := rfl
  have e25 : (canonDoc (Workload.toToml w)).root.lookup "columnfamily" =
      some (Scalar.str w.column_family) := rfl
  have e26 : (canonDoc (Workload.toToml w)).root.lookup "measurementtype" =
      some (Scalar.str w.measurement_type.toStr) := rfl
  have e27 : (canonDoc (Workload.toToml w)).tables.lookup "histogram" =
      some [("buckets", Scalar.int (millisOf w.histogram.buckets : Int))] := rfl
  have e28 : (canonDoc (Workload.toToml w)).tables.lookup "timeseries" =
      some [("granularity", Scalar.int (millisOf w.timeseries.granularity : Int))] := rfl
  unfold deWorkload
  rw [getStr_at _ _ _ _ e1, getNat_at _ _ _ _ e2, getNat_at _ _ _ _ e3,
    getNat_at _ _ _ _ e4, getNat_at _ _ _ _ e5, getNat_at _ _ _ _ e6,
    getNat_at _ _ _ _ e7, getNat_at _ _ _ _ e8, getBool_at _ _ _ _ e9,
    getBool_at _ _ _ _ e10, getEnum_at _ _ _ _ _ _ e11 (dist_fromStr_toStr _),
    getF64_at _ _ _ _ e12, getF64_at _ _ _ _ e13, getF64_at _ _ _ _ e14,
    getF64_at _ _ _ _ e15, getF64_at _ _ _ _ e16, getNat_at _ _ _ _ e17,
    getEnum_at _ _ _ _ _ _ e18 (dist_fromStr_toStr _),
    getEnum_at _ _ _ _ _ _ e19 (io_fromStr_toStr _),
    getEnum_at _ _ _ _ _ _ e20 (dist_fromStr_toStr _),
    getF64_at _ _ _ _ e21, getF64_at _ _ _ _ e22,
    getDurationSecs_at _ _ _ _ e23, getStr_at _ _ _ _ e24,
    getStr_at _ _ _ _ e25, getEnum_at _ _ _ _ _ _ e26 (mt_fromStr_toStr _),
    getTable_at _ _ _ _ _ e27, deHistogram_at _,
    getTable_at _ _ _ _ _ e28, deTimeseries_at _]
  rfl

lemma beq_canonF64 (f : F64) (h : f.isNan = false) :
    F64.beq f (canonF64 f) = true := by
  cases f with
  | nan => simp [F64.isNan] at h
  | num m e => exact beq_normalize m e

lemma from_secs_secsOf (t : Duration) (h : t % 1000000000 = 0) :
    Duration.from_secs (secsOf t) = t := by
  rw [secsOf_whole t h]
  unfold Duration.from_secs
  exact Nat.div_mul_cancel (Nat.dvd_of_mod_eq_zero h)

lemma from_millis_millisOf (t : Duration) (h : t % 1000000 = 0) :
    Duration.from_millis (millisOf t) = t := by
  rw [millisOf_whole t h]
  unfold Duration.from_millis
  exact Nat.div_mul_cancel (Nat.dvd_of_mod_eq_zero h)

lemma beq_canonW (w : Workload) (h : GoodWorkload w) :
    Workload.beq w (canonW w) = true := by
  obtain ⟨h1, h2, h3, h4, h5, h6, h7, h8, h9, h10⟩ := h
  simp [Workload.beq, canonW, beq_canonF64 _ h4, beq_canonF64 _ h5,
    beq_canonF64 _ h6, beq_canonF64 _ h7, beq_canonF64 _ h8,
    beq_canonF64 _ h9, beq_canonF64 _ h10, from_secs_secsOf _ h1,
    from_millis_millisOf _ h2, from_millis_millisOf _ h3]

lemma to_toml_string_ok (w : Workload) (hr : InRangeWorkload w) :
    Workload.to_toml_string w = .ok ⟨printDocChars (Workload.toToml w)⟩ := by
  obtain ⟨r1, r2, r3, r4, r5, r6, r7, r8, r9, r10, r11⟩ := hr
  unfold Workload.to_toml_string serCheckNat
  rw [if_pos r1, if_pos r2, if_pos r3, if_pos r4, if_pos r5, if_pos r6,
    if_pos r7, if_pos r8, if_pos r9, if_pos r10, if_pos r11]
  rfl

lemma roundTrip_of_good (w : Workload) (h : GoodWorkload w)
    (hr : InRangeWorkload w) : SerdeRoundTrips w := by
  refine ⟨⟨printDocChars (Workload.toToml w)⟩, canonW w,
    to_toml_string_ok w hr, ?_, beq_canonW w h⟩
  have htfs : toml_from_str ⟨printDocChars (Workload.toToml w)⟩ =
      .ok (canonW w) := by
    unfold toml_from_str
    rw [parse_print_toToml w hr]
    show (match deWorkload (canonDoc (Workload.toToml w)) with
      | .ok w2 => Except.ok w2
      | .error e => Except.error (TomlError.deserializeError e)) = _
    rw [deW_canon_toToml]
  unfold Workload.from_toml_str
  rw [htfs]

lemma good_default : GoodWorkload Workload.default := by
  unfold GoodWorkload
  decide

lemma good_a (rc oc : Nat) : GoodWorkload (Workload.a rc oc) := by
  unfold GoodWorkload Workload.a
  rw [buildW_max_execution_time_none _ rfl, buildW_histogram_none _ rfl,
    buildW_timeseries_none _ rfl, buildW_read_proportion_some _ _ rfl,
    buildW_update_proportion_some _ _ rfl, buildW_insert_proportion_some _ _ rfl,
    buildW_read_modify_write_proportion_none _ rfl, buildW_scan_proportion_some _ _ rfl,
    buildW_hotspot_data_fraction_none _ rfl,
    buildW_hotspot_operation_fraction_none _ rfl]
  decide

lemma good_b (rc oc : Nat) : GoodWorkload (Workload.b rc oc) := by
  unfold GoodWorkload Workload.b
  rw [buildW_max_execution_time_none _ rfl, buildW_histogram_none _ rfl,
    buildW_timeseries_none _ rfl, buildW_read_proportion_some _ _ rfl,
    buildW_update_proportion_some _ _ rfl, buildW_insert_proportion_some _ _ rfl,
    buildW_read_modify_write_proportion_none _ rfl, buildW_scan_proportion_some _ _ rfl,
    buildW_hotspot_data_fraction_none _ rfl,
    buildW_hotspot_operation_fraction_none _ rfl]
  decide

lemma good_c (rc oc : Nat) : GoodWorkload (Workload.c rc oc) := by
  unfold GoodWorkload Workload.c
  rw [buildW_max_execution_time_none _ rfl, buildW_histogram_none _ rfl,
    buildW_timeseries_none _ rfl, buildW_read_proportion_some _ _ rfl,
    buildW_update_proportion_some _ _ rfl, buildW_insert_proportion_some _ _ rfl,
    buildW_read_modify_write_proportion_none _ rfl, buildW_scan_proportion_some _ _ rfl,
    buildW_hotspot_data_fraction_none _ rfl,
    buildW_hotspot_operation_fraction_none _ rfl]
  decide

lemma good_d (rc oc : Nat) : GoodWorkload (Workload.d rc oc) := by
  unfold GoodWorkload Workload.d
  rw [buildW_max_execution_time_none _ rfl, buildW_histogram_none _ rfl,
    buildW_timeseries_none _ rfl, buildW_read_proportion_some _ _ rfl,
    buildW_update_proportion_some _ _ rfl, buildW_insert_proportion_some _ _ rfl,
    buildW_read_modify_write_proportion_none _ rfl, buildW_scan_proportion_some _ _ rfl,
    buildW_hotspot_data_fraction_none _ rfl,
    buildW_hotspot_operation_fraction_none _ rfl]
  decide

lemma good_e (rc oc : Nat) : GoodWorkload (Workload.e rc oc) := by
  unfold GoodWorkload Workload.e
  rw [buildW_max_execution_time_none _ rfl, buildW_histogram_none _ rfl,
    buildW_timeseries_none _ rfl, buildW_read_proportion_some _ _ rfl,
    buildW_update_proportion_some _ _ rfl, buildW_insert_proportion_some _ _ rfl,
    buildW_read_modify_write_proportion_none _ rfl, buildW_scan_proportion_some _ _ rfl,
    buildW_hotspot_data_fraction_none _ rfl,
    buildW_hotspot_operation_fraction_none _ rfl]
  decide

lemma good_f (rc oc : Nat) : GoodWorkload (Workload.f rc oc) := by
  unfold GoodWorkload Workload.f
  rw [buildW_max_execution_time_none _ rfl, buildW_histogram_none _ rfl,
    buildW_timeseries_none _ rfl, buildW_read_proportion_some _ _ rfl,
    buildW_update_proportion_some _ _ rfl, buildW_insert_proportion_some _ _ rfl,
    buildW_read_modify_write_proportion_some _ _ rfl, buildW_scan_proportion_some _ _ rfl,
    buildW_hotspot_data_fraction_none _ rfl,
    buildW_hotspot_operation_fraction_none _ rfl]
  decide

lemma inRange_default : InRangeWorkload Workload.default := by
  unfold InRangeWorkload
  decide

lemma inRange_a (rc oc : Nat) (h1 : rc ≤ 9223372036854775807)
    (h2 : oc ≤ 9223372036854775807) : InRangeWorkload (Workload.a rc oc) := by
  unfold InRangeWorkload Workload.a
  rw [buildW_record_count_some _ _ rfl, buildW_operation_count_some _ _ rfl,
    buildW_thread_count_none _ rfl, buildW_insert_count_none _ rfl,
    buildW_insert_start_none _ rfl, buildW_field_count_none _ rfl,
    buildW_field_length_none _ rfl, buildW_max_scan_length_none _ rfl,
    buildW_max_execution_time_none _ rfl, buildW_histogram_none _ rfl,
    buildW_timeseries_none _ rfl]
  exact ⟨h1, h2, by decide, by decide, by decide, by decide, by decide,
    by decide, by decide, by decide, by decide⟩

lemma inRange_b (rc oc : Nat) (h1 : rc ≤ 9223372036854775807)
    (h2 : oc ≤ 9223372036854775807) : InRangeWorkload (Workload.b rc oc) := by
  unfold InRangeWorkload Workload.b
  rw [buildW_record_count_some _ _ rfl, buildW_operation_count_some _ _ rfl,
    buildW_thread_count_none _ rfl, buildW_insert_count_none _ rfl,
    buildW_insert_start_none _ rfl, buildW_field_count_none _ rfl,
    buildW_field_length_none _ rfl, buildW_max_scan_length_none _ rfl,
    buildW_max_execution_time_none _ rfl, buildW_histogram_none _ rfl,
    buildW_timeseries_none _ rfl]
  exact ⟨h1, h2, by decide, by decide, by decide, by decide, by decide,
    by decide, by decide, by decide, by decide⟩

lemma inRange_c (rc oc : Nat) (h1 : rc ≤ 9223372036854775807)
    (h2 : oc ≤ 9223372036854775807) : InRangeWorkload (Workload.c rc oc) := by
  unfold InRangeWorkload Workload.c
  rw [buildW_record_count_some _ _ rfl, buildW_operation_count_some _ _ rfl,
    buildW_thread_count_none _ rfl, buildW_insert_count_none _ rfl,
    buildW_insert_start_none _ rfl, buildW_field_count_none _ rfl,
    buildW_field_length_none _ rfl, buildW_max_scan_length_none _ rfl,
    buildW_max_execution_time_none _ rfl, buildW_histogram_none _ rfl,
    buildW_timeseries_none _ rfl]
  exact ⟨h1, h2, by decide, by decide, by decide, by decide, by decide,
    by decide, by decide, by decide, by decide⟩

lemma inRange_d (rc oc : Nat) (h1 : rc ≤ 9223372036854775807)
    (h2 : oc ≤ 9223372036854775807) : InRangeWorkload (Workload.d rc oc) := by
  unfold InRangeWorkload Workload.d
  rw [buildW_record_count_some _ _ rfl, buildW_operation_count_some _ _ rfl,
    buildW_thread_count_none _ rfl, buildW_insert_count_none _ rfl,
    buildW_insert_start_none _ rfl, buildW_field_count_none _ rfl,
    buildW_field_length_none _ rfl, buildW_max_scan_length_none _ rfl,
    buildW_max_execution_time_none _ rfl, buildW_histogram_none _ rfl,
    buildW_timeseries_none _ rfl]
  exact ⟨h1, h2, by decide, by decide, by decide, by decide, by decide,
    by decide, by decide, by decide, by decide⟩

lemma inRange_e (rc oc : Nat) (h1 : rc ≤ 9223372036854775807)
    (h2 : oc ≤ 9223372036854775807) : InRangeWorkload (Workload.e rc oc) := by
  unfold InRangeWorkload Workload.e
  rw [buildW_record_count_some _ _ rfl, buildW_operation_count_some _ _ rfl,
    buildW_thread_count_none _ rfl, buildW_insert_count_none _ rfl,
    buildW_insert_start_none _ rfl, buildW_field_count_none _ rfl,
    buildW_field_length_none _ rfl, buildW_max_scan_length_some _ _ rfl,
    buildW_max_execution_time_none _ rfl, buildW_histogram_none _ rfl,
    buildW_timeseries_none _ rfl]
  exact ⟨h1, h2, by decide, by decide, by decide, by decide, by decide,
    by decide, by decide, by decide, by decide⟩

lemma inRange_f (rc oc : Nat) (h1 : rc ≤ 9223372036854775807)
    (h2 : oc ≤ 9223372036854775807) : InRangeWorkload (Workload.f rc oc) := by
  unfold InRangeWorkload Workload.f
  rw [buildW_record_count_some _ _ rfl, buildW_operation_count_some _ _ rfl,
    buildW_thread_count_none _ rfl, buildW_insert_count_none _ rfl,
    buildW_insert_start_none _ rfl, buildW_field_count_none _ rfl,
    buildW_field_length_none _ rfl, buildW_max_scan_length_none _ rfl,
    buildW_max_execution_time_none _ rfl, buildW_histogram_none _ rfl,
    buildW_timeseries_none _ rfl]
  exact ⟨h1, h2, by decide, by decide, by decide, by decide, by decide,
    by decide, by decide, by decide, by decide⟩

set_option maxRecDepth 16384 in
/-- C2 counterexample: not every producible value survives the round trip.
The builder lets a caller set `max_execution_time` to 1.5 seconds; the
serializer rounds it to the nearest whole second on the wire, so parsing the
serialized document back yields 2 seconds, a value unequal to the
original. -/
theorem c2_counterexample_builder_not_roundtrip :
    ∃ w : Workload,
      (WorkloadBuilder.default.max_execution_time 1500000000).build = .ok w ∧
      ¬ SerdeRoundTrips w := by
  refine ⟨(WorkloadBuilder.default.max_execution_time 1500000000).buildW, rfl, ?_⟩
  intro hrt
  obtain ⟨str, w2, hs, hp, hb⟩ := hrt
  rw [show Workload.to_toml_string
      ((WorkloadBuilder.default.max_execution_time 1500000000).buildW) =
      .ok ⟨printDocChars (Workload.toToml
        ((WorkloadBuilder.default.max_execution_time 1500000000).buildW))⟩
    from by decide] at hs
  cases hs
  rw [show Workload.from_toml_str ⟨printDocChars (Workload.toToml
      ((WorkloadBuilder.default.max_execution_time 1500000000).buildW))⟩ =
      RustOutcome.ok { Workload.default with max_execution_time := 2000000000 }
    from by decide] at hp
  cases hp
  exact absurd hb (by decide)

set_option maxRecDepth 16384 in
/-- C2 amended: serializing the default instance succeeds and parsing the
result back yields exactly the default instance; and every value whose
durations are whole numbers of their wire unit, whose float fields are not
NaN (`GoodWorkload`), and whose u64 wire integers are within the i64 range
(`InRangeWorkload`) round-trips up to Rust `PartialEq`.  Every preset
satisfies both whenever its two count arguments are within the i64 range.
Producible values outside these preconditions can fail the round trip: a
builder output with a fractional-second duration parses back unequal, a
count above `i64::MAX` makes serialization itself error, and a parse output
with a NaN float is unequal to itself. -/
theorem c2_amended_round_trip :
    (∃ s : String, Workload.to_toml_string Workload.default = .ok s ∧
      Workload.from_toml_str s = RustOutcome.ok Workload.default) ∧
    (∀ w : Workload, GoodWorkload w → InRangeWorkload w → SerdeRoundTrips w) ∧
    (∀ rc oc : Nat, rc ≤ 9223372036854775807 → oc ≤ 9223372036854775807 →
      SerdeRoundTrips (Workload.a rc oc) ∧ SerdeRoundTrips (Workload.b rc oc) ∧
      SerdeRoundTrips (Workload.c rc oc) ∧ SerdeRoundTrips (Workload.d rc oc) ∧
      SerdeRoundTrips (Workload.e rc oc) ∧ SerdeRoundTrips (Workload.f rc oc)) := by
  refine ⟨⟨⟨printDocChars (Workload.toToml Workload.default)⟩, by decide, by decide⟩,
    fun w hw hr => roundTrip_of_good w hw hr,
    fun rc oc h1 h2 =>
      ⟨roundTrip_of_good _ (good_a rc oc) (inRange_a rc oc h1 h2),
       roundTrip_of_good _ (good_b rc oc) (inRange_b rc oc h1 h2),
       roundTrip_of_good _ (good_c rc oc) (inRange_c rc oc h1 h2),
       roundTrip_of_good _ (good_d rc oc) (inRange_d rc oc h1 h2),
       roundTrip_of_good _ (good_e rc oc) (inRange_e rc oc h1 h2),
       roundTrip_of_good _ (good_f rc oc) (inRange_f rc oc h1 h2)⟩⟩

/-- C2 amended witness: the default instance satisfies both precondition
bundles and round-trips. -/
theorem c2_amended_witness :
    GoodWorkload Workload.default ∧ InRangeWorkload Workload.default ∧
      SerdeRoundTrips Workload.default :=
  ⟨by unfold GoodWorkload; decide, by unfold InRangeWorkload; decide,
   c2_amended_round_trip.2.1 Workload.default (by unfold GoodWorkload; decide)
     (by unfold InRangeWorkload; decide)⟩

set_option maxRecDepth 16384 in
/-- C10 counterexample: the claim fails in two ways.  First, its main clause
is false of the program: a builder output with `record_count = u64::MAX`
satisfies every stated precondition (whole-unit durations, no NaN floats),
yet `toml::to_string` errors because the value exceeds `i64::MAX`, so the
value does not round-trip at all.  Second, its parenthetical is false: TOML
accepts `nan` as a float, so a parsed document can carry a NaN field,
violating the preconditions and failing the round trip. -/
theorem c10_counterexample_out_of_range_and_nan :
    (∃ w : Workload,
      (WorkloadBuilder.default.record_count 18446744073709551615).build =
        .ok w ∧
      GoodWorkload w ∧
      Workload.to_toml_string w = .error (.outOfRange "recordcount") ∧
      ¬ SerdeRoundTrips w) ∧
    (∃ w : Workload,
      Workload.from_toml_str "readproportion = nan" = RustOutcome.ok w ∧
      w.read_proportion.isNan = true ∧ ¬ SerdeRoundTrips w) := by
  constructor
  · refine ⟨(WorkloadBuilder.default.record_count 18446744073709551615).buildW,
      rfl, by unfold GoodWorkload; decide, by decide, ?_⟩
    intro hrt
    obtain ⟨str, w2, hs, hp, hb⟩ := hrt
    rw [show Workload.to_toml_string
        ((WorkloadBuilder.default.record_count 18446744073709551615).buildW) =
        .error (.outOfRange "recordcount") from by decide] at hs
    exact Except.noConfusion hs
  · refine ⟨{ Workload.default with read_proportion := F64.nan }, by decide,
      rfl, ?_⟩
    intro hrt
    obtain ⟨str, w2, hs, hp, hb⟩ := hrt
    rw [show Workload.to_toml_string
        { Workload.default with read_proportion := F64.nan } =
        .ok ⟨printDocChars (Workload.toToml
          { Workload.default with read_proportion := F64.nan })⟩
      from by decide] at hs
    cases hs
    rw [show Workload.from_toml_str ⟨printDocChars (Workload.toToml
        { Workload.default with read_proportion := F64.nan })⟩ =
        RustOutcome.ok { Workload.default with read_proportion := F64.nan }
      from by decide] at hp
    cases hp
    exact absurd hb (by decide)

/-- C10 amended: for every `Workload` whose `max_execution_time` is a whole
number of seconds, whose `histogram.buckets` and `timeseries.granularity`
are whole numbers of milliseconds, whose seven float fields are not NaN,
and whose u64 wire integers are within the i64 range, serializing to the
text document succeeds and parsing back yields a value equal to the
original under Rust `PartialEq`.  The default instance satisfies all the
preconditions, every preset satisfies them whenever its count arguments are
within the i64 range, and a parsed document need not satisfy them (see the
counterexample). -/
theorem c10_amended_round_trip_under_preconditions :
    (∀ w : Workload,
      w.max_execution_time % 1000000000 = 0 →
      w.histogram.buckets % 1000000 = 0 →
      w.timeseries.granularity % 1000000 = 0 →
      w.read_proportion.isNan = false →
      w.update_proportion.isNan = false →
      w.insert_proportion.isNan = false →
      w.read_modify_write_proportion.isNan = false →
      w.scan_proportion.isNan = false →
      w.hotspot_data_fraction.isNan = false →
      w.hotspot_operation_fraction.isNan = false →
      InRangeWorkload w →
      SerdeRoundTrips w) ∧
    (GoodWorkload Workload.default ∧ InRangeWorkload Workload.default) ∧
    (∀ rc oc : Nat, rc ≤ 9223372036854775807 → oc ≤ 9223372036854775807 →
      (GoodWorkload (Workload.a rc oc) ∧ InRangeWorkload (Workload.a rc oc)) ∧
      (GoodWorkload (Workload.b rc oc) ∧ InRangeWorkload (Workload.b rc oc)) ∧
      (GoodWorkload (Workload.c rc oc) ∧ InRangeWorkload (Workload.c rc oc)) ∧
      (GoodWorkload (Workload.d rc oc) ∧ InRangeWorkload (Workload.d rc oc)) ∧
      (GoodWorkload (Workload.e rc oc) ∧ InRangeWorkload (Workload.e rc oc)) ∧
      (GoodWorkload (Workload.f rc oc) ∧ InRangeWorkload (Workload.f rc oc))) :=
  ⟨fun w h1 h2 h3 h4 h5 h6 h7 h8 h9 h10 hr =>
    roundTrip_of_good w ⟨h1, h2, h3, h4, h5, h6, h7, h8, h9, h10⟩ hr,
   ⟨good_default, inRange_default⟩,
   fun rc oc hc1 hc2 =>
    ⟨⟨good_a rc oc, inRange_a rc oc hc1 hc2⟩,
     ⟨good_b rc oc, inRange_b rc oc hc1 hc2⟩,
     ⟨good_c rc oc, inRange_c rc oc hc1 hc2⟩,
     ⟨good_d rc oc, inRange_d rc oc hc1 hc2⟩,
     ⟨good_e rc oc, inRange_e rc oc hc1 hc2⟩,
     ⟨good_f rc oc, inRange_f rc oc hc1 hc2⟩⟩⟩

/-- C10 witness: all the preconditions hold at the default instance, which
round-trips. -/
theorem c10_witness :
    Workload.default.max_execution_time % 1000000000 = 0 ∧
    InRangeWorkload Workload.default ∧ SerdeRoundTrips Workload.default :=
  ⟨by decide, by unfold InRangeWorkload; decide,
   c10_amended_round_trip_under_preconditions.1 Workload.default (by decide)
     (by decide) (by decide) (by decide) (by decide) (by decide) (by decide)
     (by decide) (by decide) (by decide) (by unfold InRangeWorkload; decide)⟩

end Ycsb
